import Mathlib

/-!
# Verification of the Genesis-AI-Agent core against its specification

This file is a shallow embedding, in Lean 4, of the parts of the
Genesis-AI-Agent Python code base that the specification's claims are about:

* `modules/permissions.py`  — the permission store (`check_permission`,
  `grant_permission`);
* `modules/actions/cache.py` — the pre-request action cache (`ActionCache`);
* `modules/tasks/scheduler.py` — the cron-subset matcher (`_should_run`) and
  the scheduler tick (`_scheduler_loop` body);
* `modules/actions/gplug.py` and `modules/actions/registry.py` — plugin
  packaging, integrity verification, and installation;
* `modules/ai_agent/core.py` — the turn orchestrator `AIAgent.ask_stream`
  (pre-request phase, the first "generation loop", and the body of the second
  generation loop which holds the permission gate and the final-response
  analysis).

Conventions of the embedding:

* Python `dict`s that come from parsed JSON are modelled by the inductive
  `Json` below (parsed-JSON dictionary keys are always strings in CPython's
  `json` module, so object fields are keyed by `String`).
* Machine-level side effects (SQLite, the file system, subprocesses, threads)
  are modelled by explicit state passing.  External effectful collaborators
  that the claims quantify over — the model provider's streamed output, the
  plugin executor's result, `extract_json`'s underlying `json.loads` — are
  taken as function parameters, so each theorem quantifies over all of their
  behaviours.
* Python exceptions are modelled with `Except String`; the string is the
  (approximate) message of the exception.
* Wall-clock instants (`time.time()`) are modelled as rationals, dates
  (`date.today().isoformat()`) as ISO strings compared lexicographically,
  which agrees with SQLite's TEXT comparison for fixed-format ISO dates.
* The `sha256 hexdigest` function of `hashlib` is taken as an opaque
  parameter `sha : String → String`; no claim depends on its internals,
  only on both sides applying the same function to the same canonical
  serialisation.
-/

namespace Genesis

/-! ## Parsed JSON values (the results of `json.loads`) -/

/-- A parsed JSON value.  CPython's `json.loads` produces `None`, `bool`,
`int`/`float`, `str`, `list` and `dict` with string keys; the manifests,
model outputs and action arguments handled by the claims only contain
integers, so numbers are modelled as `Int`. -/
inductive Json where
  | null : Json
  | bool (b : Bool) : Json
  | int (n : Int) : Json
  | str (s : String) : Json
  | arr (elems : List Json) : Json
  | obj (fields : List (String × Json)) : Json
deriving Repr, Inhabited

/-- Key lookup in an association list, first match wins (Python dicts hold at
most one entry per key; first-match lookup coincides with dict lookup on any
list built by the embedding). -/
def lookupKey {α : Type} (fields : List (String × α)) (k : String) : Option α :=
  match fields with
  | [] => none
  | (k', v) :: rest => if k' = k then some v else lookupKey rest k

/-- Python `k in d` for a dict `d`. -/
def hasKey {α : Type} (fields : List (String × α)) (k : String) : Bool :=
  (lookupKey fields k).isSome

/-- Python `d[k] = v` on a dict: replaces the value if the key is present
(keeping its position, as CPython does), else appends the new entry. -/
def dictSet {α : Type} (fields : List (String × α)) (k : String) (v : α) :
    List (String × α) :=
  match fields with
  | [] => [(k, v)]
  | (k', v') :: rest =>
      if k' = k then (k', v) :: rest else (k', v') :: dictSet rest k v

/-- Python truthiness of a parsed JSON value (`if x:`): `None`, `False`,
`0`, `""`, `[]` and `{}` are falsy. -/
def Json.truthy : Json → Bool
  | .null => false
  | .bool b => b
  | .int n => n != 0
  | .str s => s ≠ ""
  | .arr xs => !xs.isEmpty
  | .obj fs => !fs.isEmpty

/-- Python truthiness of an `Optional` value holding a parsed JSON value
(used for `d.get(k)` results: `None` when the key is absent). -/
def optTruthy : Option Json → Bool
  | none => false
  | some j => j.truthy

/-! ## Character-list string helpers

Lean's own `String.split`, `trim`, `take`, `drop` and `startsWith` are
compiled primitives whose definitions do not reduce inside the kernel, so
the embedding re-implements the Python string operations it needs on the
character list of a string; witnesses can then be checked by `decide`. -/

/-- Python `str.strip()` (whitespace from both ends). -/
def pyTrim (s : String) : String :=
  String.mk
    (((s.data.dropWhile Char.isWhitespace).reverse.dropWhile
      Char.isWhitespace).reverse)

/-- Prefix test on character lists. -/
def charsLead : List Char → List Char → Bool
  | [], _ => true
  | _ :: _, [] => false
  | a :: as, b :: bs => a == b && charsLead as bs

/-- Python `s.startswith(pre)`. -/
def pyStartsWith (s pre : String) : Bool :=
  charsLead pre.data s.data

/-- Infix search on character lists (the scan behind Python `in`). -/
def charsScan (needle : List Char) : List Char → Bool
  | [] => charsLead needle []
  | c :: cs => charsLead needle (c :: cs) || charsScan needle cs

/-- Python slicing `s[n:]`. -/
def pyDrop (s : String) (n : Nat) : String :=
  String.mk (s.data.drop n)

/-- Python slicing `s[:n]`. -/
def pyTake (s : String) (n : Nat) : String :=
  String.mk (s.data.take n)

/-- Splitting helper of `pySplitWs`: accumulate the current run. -/
def splitWsAux : List Char → List Char → List (List Char)
  | [], acc => if acc.isEmpty then [] else [acc.reverse]
  | c :: cs, acc =>
      if c.isWhitespace then
        if acc.isEmpty then splitWsAux cs []
        else acc.reverse :: splitWsAux cs []
      else splitWsAux cs (c :: acc)

/-! ## `modules/permissions.py` — the permission store

A row of the `permissions` SQLite table.  `granted_at` is never read by
`check_permission` and is omitted.  `expires_at` is a `DATE` column written
as an ISO `YYYY-MM-DD` string or `NULL`; SQLite compares such TEXT values
bytewise, which for the fixed ISO format coincides with the lexicographic
`String` order used here. -/
structure PermRow where
  userId : String
  actionName : String
  scope : String
  chatId : Option String
  expiresAt : Option String
deriving Repr, DecidableEq

/-- The permission store: the rows of the `permissions` table, in insertion
order. -/
abbrev PermDb := List PermRow

/-- Embedding of `check_permission(user_id, action_name, chat_id=None)` from
`modules/permissions.py` (lines 36-73).  `today` is
`date.today().isoformat()`.  The three SQL probes are translated in order;
an early `return True` is a disjunction.  SQL `expires_at >= ?` is false on
`NULL`, and `chat_id = ?` never matches a `NULL` column.  The session probe
runs only under Python's `if chat_id:`, which is false both for `None` and
for the empty string. -/
def check_permission (db : PermDb) (today : String)
    (user_id action_name : String) (chat_id : Option String) : Bool :=
  -- 1. Check ALWAYS
  (db.any fun r =>
    r.userId = user_id ∧ r.actionName = action_name ∧ r.scope = "always") ||
  -- 2. Check TODAY (`expires_at >= today_str`)
  (db.any fun r =>
    r.userId == user_id && r.actionName == action_name && r.scope == "today" &&
      match r.expiresAt with
      | some d => decide (today ≤ d)
      | none => false) ||
  -- 3. Check SESSION (guarded by `if chat_id:`)
  (match chat_id with
   | some c =>
       c ≠ "" &&
       db.any fun r =>
         r.userId = user_id ∧ r.actionName = action_name ∧
           r.scope = "session" ∧ r.chatId = some c
   | none => false)

/-- Embedding of `grant_permission(user_id, action_name, scope, chat_id=None)` from
`modules/permissions.py` (lines 75-109).  `once` returns without touching
the table; otherwise one row is inserted, with `expires_at` set only for
`today` and `chat_id` kept only for `session`. -/
def grant_permission (db : PermDb) (today : String)
    (user_id action_name scope : String) (chat_id : Option String) :
    PermDb :=
  if scope = "once" then db
  else
    db ++ [{ userId := user_id, actionName := action_name, scope := scope,
             chatId := if scope = "session" then chat_id else none,
             expiresAt := if scope = "today" then some today else none }]

/-- The permission predicate exactly as claim C4 words it (spec §4.5): a
grant for `(userId, actionName)` with scope `always`, or scope `today`
whose stored date is ≥ the current date, or — when a `chatId` is supplied —
scope `session` whose stored chatId equals the supplied one.  This is the
spec-side definition compared against `check_permission`. -/
def claimedPermissionC4 (db : PermDb) (today : String)
    (user_id action_name : String) (chat_id : Option String) : Bool :=
  (db.any fun r =>
    r.userId = user_id ∧ r.actionName = action_name ∧ r.scope = "always") ||
  (db.any fun r =>
    r.userId == user_id && r.actionName == action_name && r.scope == "today" &&
      match r.expiresAt with
      | some d => decide (today ≤ d)
      | none => false) ||
  (match chat_id with
   | some c =>
       db.any fun r =>
         r.userId = user_id ∧ r.actionName = action_name ∧
           r.scope = "session" ∧ r.chatId = some c
   | none => false)

/-! ## `modules/actions/cache.py` — the pre-request action cache -/

/-- One stored cache entry: `{data, timestamp, ttl}` (`ActionCache.set`,
lines 91-96).  `time.time()` instants are modelled as rationals. -/
structure CacheEntry where
  data : Json
  timestamp : ℚ
  ttl : Int
deriving Repr

/-- The `ActionCache._cache` dictionary: key → entry.  Keys are the strings
produced by `_make_key`. -/
abbrev Cache := List (String × CacheEntry)

/-- Embedding of `ActionCache._make_key` (lines 26-28): `f"{action_name}:{user_id}"`. -/
def cacheKey (action_name user_id : String) : String :=
  action_name ++ ":" ++ user_id

/-- Dictionary assignment for the cache (`self._cache[key] = ...`). -/
def cacheStore (c : Cache) (k : String) (e : CacheEntry) : Cache :=
  match c with
  | [] => [(k, e)]
  | (k', e') :: rest =>
      if k' = k then (k', e) :: rest else (k', e') :: cacheStore rest k e

/-- Dictionary lookup for the cache (`self._cache.get(key)`). -/
def cacheLookup (c : Cache) (k : String) : Option CacheEntry :=
  match c with
  | [] => none
  | (k', e) :: rest => if k' = k then some e else cacheLookup rest k

/-- Embedding of `ActionCache.get(action_name, user_id, ttl)` (lines 30-56): `ttl ≤ 0`
short-circuits to `None`; otherwise the entry is returned only while
`age < ttl` where `age = now - entry["timestamp"]`. -/
def cacheGet (c : Cache) (now : ℚ) (action_name user_id : String)
    (ttl : Int) : Option Json :=
  if ttl ≤ 0 then none
  else
    match cacheLookup c (cacheKey action_name user_id) with
    | none => none
    | some e => if now - e.timestamp < (ttl : ℚ) then some e.data else none

/-- Embedding of `ActionCache.get_stale(action_name, user_id)` (lines 58-70): returns the
stored data regardless of age. -/
def cacheGetStale (c : Cache) (action_name user_id : String) : Option Json :=
  (cacheLookup c (cacheKey action_name user_id)).map (·.data)

/-- Embedding of `ActionCache.is_stale(action_name, user_id, ttl)` (lines 72-82). -/
def cacheIsStale (c : Cache) (now : ℚ) (action_name user_id : String)
    (ttl : Int) : Bool :=
  match cacheLookup c (cacheKey action_name user_id) with
  | none => true
  | some e => (ttl : ℚ) ≤ now - e.timestamp

/-- Embedding of `ActionCache.set(action_name, user_id, data, ttl)` (lines 84-96):
`ttl ≤ 0` stores nothing; otherwise the entry is overwritten with the
current time. -/
def cacheSet (c : Cache) (now : ℚ) (action_name user_id : String)
    (data : Json) (ttl : Int) : Cache :=
  if ttl ≤ 0 then c
  else cacheStore c (cacheKey action_name user_id)
        { data := data, timestamp := now, ttl := ttl }

/-! ## `modules/tasks/scheduler.py` — cron-subset matcher and tick -/

/-- Python `str.split()` with no argument: split on whitespace runs,
dropping empty pieces. -/
def pySplitWs (s : String) : List String :=
  (splitWsAux s.data []).map String.mk

/-- Digit-run parser used by `pyInt?`: all characters must be ASCII digits
and the run must be non-empty. -/
def digitsToNat? (cs : List Char) : Option Nat :=
  if cs.isEmpty then none
  else
    cs.foldl
      (fun acc c =>
        match acc with
        | none => none
        | some n =>
            if c.isDigit then some (n * 10 + (c.toNat - Char.toNat '0'))
            else none)
      (some 0)

/-- CPython `int(s)` on the ASCII strings that occur in schedule fields:
surrounding whitespace is stripped, an optional sign is accepted, then a
non-empty ASCII digit run; `none` models the raised `ValueError`.
(CPython additionally accepts underscore digit separators and non-ASCII
digits, which never occur in the inputs quantified over here.) -/
def pyInt? (s : String) : Option Int :=
  match (pyTrim s).data with
  | [] => none
  | '+' :: rest => (digitsToNat? rest).map (fun n => (n : Int))
  | '-' :: rest => (digitsToNat? rest).map (fun n => -(n : Int))
  | cs => (digitsToNat? cs).map (fun n => (n : Int))

/-- The minute-field test of `TaskScheduler._should_run`
(`modules/tasks/scheduler.py` lines 200-207).  `none` models a raised
exception (`ValueError` from `int`, or `ZeroDivisionError` when the `*/N`
interval is `0`); `some b` is "the minute check passed / failed".  Python's
`%` and `Int.emod` disagree on signs but agree on `== 0`, which is all the
source tests. -/
def checkMinuteField (minute : String) (nowMinute : Nat) : Option Bool :=
  if minute = "*" then some true
  else if pyStartsWith minute "*/" then
    match pyInt? (pyDrop minute 2) with
    | none => none
    | some interval =>
        if interval = 0 then none
        else some (((nowMinute : Int) % interval) == 0)
  else
    match pyInt? minute with
    | none => none
    | some v => some (v == (nowMinute : Int))

/-- The hour-field test of `TaskScheduler._should_run` (lines 209-211):
`hour != "*" and int(hour) != now.hour`.  An hour field of the form `*/N`
reaches `int("*/N")`, which raises — modelled as `none`. -/
def checkHourField (hour : String) (nowHour : Nat) : Option Bool :=
  if hour = "*" then some true
  else
    match pyInt? hour with
    | none => none
    | some v => some (v == (nowHour : Int))

/-- Embedding of `TaskScheduler._should_run(schedule, now)` (lines 187-217).
The whole body sits in a `try` whose bare `except` returns `False`, so a
`none` from either field check collapses to `false`.  Day, month and
weekday are parsed but ignored (lines 213-214). -/
def shouldRun (schedule : String) (nowMinute nowHour : Nat) : Bool :=
  match pySplitWs schedule with
  | [minute, hour, _day, _month, _weekday] =>
      (match checkMinuteField minute nowMinute with
       | none => false
       | some false => false
       | some true =>
           match checkHourField hour nowHour with
           | none => false
           | some ok => ok)
  | _ => false

/-- A persisted scheduler task (`TaskScheduler.create_task`, lines 59-71),
restricted to the fields the tick inspects. -/
structure Task where
  id : String
  action : String
  schedule : Option String
  status : String
deriving Repr, DecidableEq

/-- One pass of the `_scheduler_loop` body (lines 154-180): the tasks whose
action is dispatched to the Execution Engine on this tick.  A task is
skipped when its status is not `"active"` or its schedule is falsy
(`None` or the empty string); otherwise it runs exactly when `_should_run`
matches the current time. -/
def schedulerTick (tasks : List Task) (nowMinute nowHour : Nat) : List Task :=
  tasks.filter fun t =>
    t.status == "active" &&
    (match t.schedule with
     | none => false
     | some s => s ≠ "" && shouldRun s nowMinute nowHour)

/-- Field matching as claim C9 words it (spec §4.7): a field is `*`
(matches anything), a literal integer (matches that value), or `*/N`
(matches multiples of N).  This is the spec-side definition compared
against `shouldRun`. -/
def specFieldMatchesC9 (field : String) (value : Nat) : Bool :=
  if field = "*" then true
  else if pyStartsWith field "*/" then
    match pyInt? (pyDrop field 2) with
    | none => false
    | some n => if n = 0 then false else (((value : Int) % n) == 0)
  else
    match pyInt? field with
    | none => false
    | some v => v == (value : Int)

/-! ## CPython `json.dumps` (the serialisations used by the code)

`gplug.calculate_manifest_hash` serialises with
`sort_keys=True, separators=(",", ":")`; the orchestrator serialises action
outputs with plain `json.dumps(x)` (separators `", "` / `": "`) and
pre-request outputs with `json.dumps(x, indent=2)`. -/

/-- Lower-case hex digit. -/
def hexDigit (n : Nat) : Char :=
  if n < 10 then Char.ofNat (Char.toNat '0' + n)
  else Char.ofNat (Char.toNat 'a' + (n - 10))

/-- Four lower-case hex digits, as in a JSON `\uXXXX` escape. -/
def hex4 (n : Nat) : String :=
  String.mk [hexDigit (n / 4096 % 16), hexDigit (n / 256 % 16),
             hexDigit (n / 16 % 16), hexDigit (n % 16)]

/-- CPython `json` string escaping with the default `ensure_ascii=True`:
quote and backslash are escaped, the five short escapes are used for
control characters that have them, other characters below `0x20` and all
characters above `0x7e` become `\uXXXX` (a surrogate pair beyond the
BMP). -/
def jsonEscapeChar (c : Char) : String :=
  let n := c.toNat
  if c = '"' then "\\\""
  else if c = '\\' then "\\\\"
  else if n = 8 then "\\b"
  else if n = 9 then "\\t"
  else if n = 10 then "\\n"
  else if n = 12 then "\\f"
  else if n = 13 then "\\r"
  else if n < 32 then "\\u" ++ hex4 n
  else if n ≤ 126 then String.mk [c]
  else if n ≤ 65535 then "\\u" ++ hex4 n
  else
    let v := n - 65536
    "\\u" ++ hex4 (55296 + v / 1024) ++ "\\u" ++ hex4 (56320 + v % 1024)

/-- Escape a whole string body (without the surrounding quotes). -/
def jsonEscape (s : String) : String :=
  s.toList.foldl (fun acc c => acc ++ jsonEscapeChar c) ""

/-- A serialised JSON string literal. -/
def jsonQuote (s : String) : String :=
  "\"" ++ jsonEscape s ++ "\""

/-- Serialisation configuration: the `separators` pair and `indent` of
`json.dumps`.  `sort_keys=True` is modelled by pre-sorting every object's
fields with `sortJson` before encoding, which produces the identical
output. -/
structure DumpCfg where
  itemSep : String
  kvSep : String
  indent : Option Nat
deriving Repr

/-- Indentation padding at a nesting depth. -/
def padOf (cfg : DumpCfg) (depth : Nat) : String :=
  match cfg.indent with
  | none => ""
  | some n => String.mk (List.replicate (n * depth) ' ')

/-- Stable insertion into a key-sorted field list (for `sort_keys=True`;
Python `sorted` compares strings by code point, as Lean's `String` order
does). -/
def insertField (p : String × Json) :
    List (String × Json) → List (String × Json)
  | [] => [p]
  | q :: rest => if p.1 ≤ q.1 then p :: q :: rest else q :: insertField p rest

/-- Key-sort of an object's fields. -/
def sortFields (fs : List (String × Json)) : List (String × Json) :=
  fs.foldr insertField []

/-- Join with a separator. -/
def joinStrs (sep : String) : List String → String
  | [] => ""
  | [x] => x
  | x :: xs => x ++ sep ++ joinStrs sep xs

mutual

/-- Serialise one JSON value at a nesting depth, following CPython's
encoder for the three configurations used by the sources. -/
def dumpsVal (cfg : DumpCfg) (depth : Nat) : Json → String
  | .null => "null"
  | .bool true => "true"
  | .bool false => "false"
  | .int n => toString n
  | .str s => jsonQuote s
  | .arr [] => "[]"
  | .arr (x :: xs) =>
      let items := dumpsItems cfg depth (x :: xs)
      match cfg.indent with
      | none => "[" ++ joinStrs cfg.itemSep items ++ "]"
      | some _ =>
          "[\n" ++ padOf cfg (depth + 1) ++
            joinStrs (cfg.itemSep ++ "\n" ++ padOf cfg (depth + 1)) items ++
            "\n" ++ padOf cfg depth ++ "]"
  | .obj [] => "\x7b\x7d"
  | .obj (f :: fs) =>
      let items := dumpsEntries cfg depth (f :: fs)
      match cfg.indent with
      | none => "\x7b" ++ joinStrs cfg.itemSep items ++ "\x7d"
      | some _ =>
          "\x7b\n" ++ padOf cfg (depth + 1) ++
            joinStrs (cfg.itemSep ++ "\n" ++ padOf cfg (depth + 1)) items ++
            "\n" ++ padOf cfg depth ++ "\x7d"

/-- Serialise the elements of an array. -/
def dumpsItems (cfg : DumpCfg) (depth : Nat) : List Json → List String
  | [] => []
  | x :: xs => dumpsVal cfg (depth + 1) x :: dumpsItems cfg depth xs

/-- Serialise the entries of an object. -/
def dumpsEntries (cfg : DumpCfg) (depth : Nat) :
    List (String × Json) → List String
  | [] => []
  | (k, v) :: fs =>
      (jsonQuote k ++ cfg.kvSep ++ dumpsVal cfg (depth + 1) v) ::
        dumpsEntries cfg depth fs

end

mutual

/-- Recursively key-sort every object in a JSON tree (the effect of
`sort_keys=True` on the emitted text). -/
def sortJson : Json → Json
  | .arr xs => .arr (sortJsonList xs)
  | .obj fs => .obj (sortFields (sortJsonFields fs))
  | j => j

/-- Helper of `sortJson` for array elements. -/
def sortJsonList : List Json → List Json
  | [] => []
  | x :: xs => sortJson x :: sortJsonList xs

/-- Helper of `sortJson` for object entries. -/
def sortJsonFields : List (String × Json) → List (String × Json)
  | [] => []
  | (k, v) :: fs => (k, sortJson v) :: sortJsonFields fs

end

/-- The canonical serialisation of `gplug.calculate_manifest_hash`:
`json.dumps(x, sort_keys=True, separators=(",", ":"))`. -/
def dumpsCanonical (j : Json) : String :=
  dumpsVal { itemSep := ",", kvSep := ":", indent := none } 0 (sortJson j)

/-- Plain `json.dumps(x)`. -/
def dumpsDefault (j : Json) : String :=
  dumpsVal { itemSep := ", ", kvSep := ": ", indent := none } 0 j

/-- The pretty serialisation `json.dumps(x, indent=2)` used for pre-request
outputs (with indent, CPython defaults separators to `","` / `": "`). -/
def dumpsIndent2 (j : Json) : String :=
  dumpsVal { itemSep := ",", kvSep := ": ", indent := some 2 } 0 j

/-- Simplified Python `repr` of a parsed JSON value, used only through
`pyStr` below when an f-string renders a container (the payloads that
actually occur in the claims are scalars).  Strings are single-quoted with
backslash and quote escaped. -/
def pyReprStr (s : String) : String :=
  "\x27" ++
    s.toList.foldl
      (fun acc c =>
        acc ++ (if c = '\\' then "\\\\" else if c = '\x27' then "\\\x27"
                else String.mk [c]))
      "" ++ "\x27"

mutual

/-- Simplified Python `repr` of a parsed JSON value. -/
def pyRepr : Json → String
  | .null => "None"
  | .bool true => "True"
  | .bool false => "False"
  | .int n => toString n
  | .str s => pyReprStr s
  | .arr xs => "[" ++ joinStrs ", " (pyReprList xs) ++ "]"
  | .obj fs => "\x7b" ++ joinStrs ", " (pyReprFields fs) ++ "\x7d"

/-- Helper of `pyRepr` for array elements. -/
def pyReprList : List Json → List String
  | [] => []
  | x :: xs => pyRepr x :: pyReprList xs

/-- Helper of `pyRepr` for object entries. -/
def pyReprFields : List (String × Json) → List String
  | [] => []
  | (k, v) :: fs => (pyReprStr k ++ ": " ++ pyRepr v) :: pyReprFields fs

end

/-- Python `str()` of a parsed JSON value (an f-string interpolation):
scalars print their Python form, containers fall back to `repr`. -/
def pyStr : Json → String
  | .null => "None"
  | .bool true => "True"
  | .bool false => "False"
  | .int n => toString n
  | .str s => s
  | j => pyRepr j

/-! ## `modules/actions/gplug.py` — packaging and integrity -/

/-- A plugin manifest as parsed from `manifest.json`: a JSON object's field
list. -/
abbrev Manifest := List (String × Json)

/-- The dict comprehension of `calculate_manifest_hash`:
`{k: v for k, v in manifest.items() if k != 'integrity'}`. -/
def stripIntegrity (m : Manifest) : Manifest :=
  m.filter (fun kv => kv.1 ≠ "integrity")

/-- Embedding of `calculate_manifest_hash(manifest)` (`gplug.py` lines
22-30): SHA-256 hex digest of the manifest serialised without its
`integrity` field, `sort_keys=True`, separators `(",", ":")`.  `sha`
abstracts `hashlib.sha256(...).hexdigest()`. -/
def calculate_manifest_hash (sha : String → String) (m : Manifest) : String :=
  sha (dumpsCanonical (Json.obj (stripIntegrity m)))

/-- Embedding of `sign_manifest(manifest)` (lines 33-43): store
`integrity = {sha256, signed_at}` into the manifest.  `now` is
`datetime.now().isoformat()`. -/
def sign_manifest (sha : String → String) (now : String) (m : Manifest) :
    Manifest :=
  dictSet m "integrity"
    (.obj [("sha256", .str (calculate_manifest_hash sha m)),
           ("signed_at", .str now)])

/-- Embedding of `verify_manifest(manifest)` (lines 46-65), returning
`(is_valid, message)`.  An `.error` models an uncaught Python exception:
`manifest['integrity'].get('sha256')` raises when the integrity value is
not a dict, and the mismatch message's `stored_hash[:16]` slice raises when
the stored hash is truthy but not a string. -/
def verify_manifest (sha : String → String) (m : Manifest) :
    Except String (Bool × String) :=
  match lookupKey m "integrity" with
  | none => .ok (true, "No integrity lock (unverified plugin)")
  | some (.obj ib) =>
      let stored := lookupKey ib "sha256"
      if ¬ optTruthy stored then
        .ok (false, "Invalid integrity block: missing sha256")
      else
        let calculated := calculate_manifest_hash sha m
        match stored with
        | some (.str h) =>
            if calculated = h then .ok (true, "Integrity verified")
            else
              .ok (false,
                "Integrity mismatch: expected " ++ pyTake h 16 ++
                  "..., got " ++ pyTake calculated 16 ++ "...")
        | _ => .error "TypeError: value is not subscriptable"
  | some _ => .error "AttributeError: object has no attribute get"

/-- A plugin directory on disk: its parsed `manifest.json` plus the other
files that survive packing (the zip walk excludes `__pycache__`, venvs,
`.git` and `.pyc` files; the model's `files` list holds what is zipped). -/
structure PluginDir where
  manifest : Manifest
  files : List (String × String)
deriving Repr

/-- A `.gplug` archive.  `isZip` models `zipfile.is_zipfile`; `manifest` is
the parsed `manifest.json` at the archive root when present (`json.dump`
followed by `json.load` round-trips, so the parsed form is carried
directly). -/
structure Archive where
  isZip : Bool
  manifest : Option Manifest
  files : List (String × String)
deriving Repr

/-- The extracted contents sitting at an installed plugin path. -/
structure DirTree where
  manifest : Option Manifest
  files : List (String × String)
deriving Repr

/-- The plugin areas of the file system: absolute plugin directory path ↦
extracted contents. -/
abbrev PluginFS := List (String × DirTree)

/-- Embedding of `pack_plugin(plugin_path)` (lines 68-123): sign the
manifest, write it back into the plugin directory (the signature is kept,
per the `finally` comment), and zip the directory — so the archive carries
the signed manifest.  Returns the mutated directory and the archive. -/
def pack_plugin (sha : String → String) (now : String) (d : PluginDir) :
    PluginDir × Archive :=
  let signed := sign_manifest sha now d.manifest
  ({ d with manifest := signed },
   { isZip := true, manifest := some signed, files := d.files })

/-- Embedding of `unpack_plugin(gplug_path, target_dir, verify)` (lines
126-183).  Order as in the source: zip check, manifest presence, optional
integrity verification, then `final_path = target_dir/<id>` is cleared and
the extracted tree moved in; the returned manifest gains `_path`.  Errors
raised before the move leave the file system untouched. -/
def unpack_plugin (sha : String → String) (ar : Archive) (target_dir : String)
    (verify : Bool) (fs : PluginFS) :
    Except String Manifest × PluginFS :=
  if ¬ ar.isZip then
    (.error "Invalid .gplug file (not a ZIP archive)", fs)
  else
    match ar.manifest with
    | none => (.error "Invalid .gplug: no manifest.json found", fs)
    | some m =>
        let gate : Except String Unit :=
          if verify then
            match verify_manifest sha m with
            | .error e => .error e
            | .ok (valid, msg) =>
                if valid then .ok ()
                else .error ("Integrity check failed: " ++ msg)
          else .ok ()
        match gate with
        | .error e => (.error e, fs)
        | .ok _ =>
            -- plugin_id = manifest.get('id', 'unknown_plugin')
            match
              (match lookupKey m "id" with
               | none => Except.ok "unknown_plugin"
               | some (.str s) => Except.ok s
               | some _ =>
                   Except.error "TypeError: join() argument must be str") with
            | .error e => (.error e, fs)
            | .ok pid =>
                let final_path := target_dir ++ "/" ++ pid
                (.ok (dictSet m "_path" (.str final_path)),
                 dictSet fs final_path { manifest := some m, files := ar.files })

/-! ## `modules/actions/registry.py` — the action registry -/

/-- The in-memory registry state: `self.actions` (action name ↦ metadata
dict) and `self.plugins` (plugin id ↦ manifest). -/
structure Registry where
  actions : List (String × Json)
  plugins : List (String × Manifest)
deriving Repr

/-- Embedding of `ActionRegistry._register_actions_from_manifest(manifest)`
(lines 66-83).  The `manifest["_role"]` subscript raises `KeyError` when
the key is absent — `unpack_plugin` sets only `_path`, so installs hit this.
The reads of `id`, `_role` and `_path` happen before the loop, so a raise
there leaves `self.actions` untouched.  A truthy non-list `actions` value,
or a non-dict entry, raises during iteration; entries with a falsy or
non-string name are skipped (a non-string truthy name would key the Python
dict by a non-string, which the manifests quantified over never contain).
-/
def register_actions_from_manifest (m : Manifest)
    (acts : List (String × Json)) : Except String (List (String × Json)) :=
  match lookupKey m "id" with
  | none => .error "KeyError: \x27id\x27"
  | some pidJ =>
      match lookupKey m "_role" with
      | none => .error "KeyError: \x27_role\x27"
      | some role =>
          match lookupKey m "_path" with
          | none => .error "KeyError: \x27_path\x27"
          | some (.str path) =>
              let actionList : Except String (List Json) :=
                match lookupKey m "actions" with
                | none => .ok []
                | some (.arr l) => .ok l
                | some j =>
                    if j.truthy then .error "TypeError: object is not a list"
                    else .ok []
              match actionList with
              | .error e => .error e
              | .ok l =>
                  l.foldlM
                    (fun acc a =>
                      match a with
                      | .obj af =>
                          match lookupKey af "name" with
                          | some (.str n) =>
                              if n = "" then .ok acc
                              else
                                match
                                  (match lookupKey af "script" with
                                   | none => Except.ok "main.py"
                                   | some (.str s) => Except.ok s
                                   | some _ =>
                                       Except.error
                                         "TypeError: join() argument must be str") with
                                | .error e => .error e
                                | .ok script =>
                                    .ok (dictSet acc n (Json.obj
                                      [("plugin_id", pidJ),
                                       ("role", role),
                                       ("path", .str path),
                                       ("spec", .obj af),
                                       ("script", .str (path ++ "/" ++ script)),
                                       ("cache_ttl",
                                         (lookupKey af "cache_ttl").getD (.int 0)),
                                       ("trigger",
                                         (lookupKey af "trigger").getD
                                           (.str "manual"))]))
                          | some _ => .ok acc
                          | none => .ok acc
                      | _ => .error "AttributeError: object has no attribute get")
                    acts
          | some _ => .error "TypeError: expected str"

/-- Embedding of `ActionRegistry.install_plugin(gplug_path, user_id, scope)`
(lines 95-127): resolve the target directory, unpack with verification,
then register the actions and record the plugin.  Exceptions propagate to
the caller; a raise after the unpack leaves the moved files in place but
the registry maps untouched. -/
def install_plugin (sha : String → String) (reg : Registry) (fs : PluginFS)
    (ar : Archive) (user_id : Option String) (scope : String) :
    Except String Manifest × Registry × PluginFS :=
  let targetRes : Except String String :=
    if scope = "system" then .ok "data/plugins"
    else
      match user_id with
      | none => .error "user_id required for user-scoped plugins"
      | some u => .ok ("bot_data/users/" ++ u ++ "/plugins")
  match targetRes with
  | .error e => (.error e, reg, fs)
  | .ok target_dir =>
      match unpack_plugin sha ar target_dir true fs with
      | (.error e, fs') => (.error e, reg, fs')
      | (.ok m, fs') =>
          match register_actions_from_manifest m reg.actions with
          | .error e => (.error e, reg, fs')
          | .ok acts' =>
              match lookupKey m "id" with
              | some (.str pid) =>
                  (.ok m,
                   { actions := acts', plugins := dictSet reg.plugins pid m },
                   fs')
              | _ =>
                  (.error "TypeError: unhashable or missing id",
                   { actions := acts', plugins := reg.plugins }, fs')

/-! ## `modules/ai_agent/core.py` — the turn orchestrator `ask_stream`

The orchestrator is a Python generator.  Its collaborators are parameters:
the provider's generator output per call, the executor's result per action,
the progress messages delivered through the callback queue, the registry
lookup, `extract_json` (whose `json.loads` core is not re-implemented), and
`build_system_prompt`.  The parallel execution block is modelled
sequentially — progress drained first, completions in submission order —
which is one admissible interleaving; no claim below depends on the
interleaving. -/

/-- Python substring test `needle in hay`. -/
def strContains (hay needle : String) : Bool :=
  charsScan needle.data hay.data

/-- Python `key in x` where `x` is a parsed JSON value: key membership for
dicts, substring for strings, element membership for lists (a string key
equals only equal string elements), `TypeError` otherwise. -/
def pyContainsKey (key : String) : Json → Except String Bool
  | .obj fs => .ok (hasKey fs key)
  | .str s => .ok (strContains s key)
  | .arr xs =>
      .ok (xs.any fun e =>
        match e with
        | .str s => s == key
        | _ => false)
  | _ => .error "TypeError: argument of type is not iterable"

/-- Python `x[key]` where `x` is a parsed JSON value. -/
def pyIndexKey (key : String) : Json → Except String Json
  | .obj fs =>
      match lookupKey fs key with
      | some v => .ok v
      | none => .error ("KeyError: \x27" ++ key ++ "\x27")
  | .str _ => .error "TypeError: string indices must be integers"
  | .arr _ => .error "TypeError: list indices must be integers"
  | _ => .error "TypeError: object is not subscriptable"

/-- Python `x.get(key, d)` for the object values the orchestrator reads
(every call site guarantees a dict). -/
def jsonGetD (j : Json) (key : String) (d : Json) : Json :=
  match j with
  | .obj fs => (lookupKey fs key).getD d
  | _ => d

/-- A provider event dict (the `{"status": ...}` objects yielded by
`provider.generate`); absent keys default like `dict.get`. -/
structure PDict where
  status : String
  chunk : String := ""
  thinking : String := ""
  raw : Option String := none
  err : String := ""
deriving Repr, DecidableEq

/-- A chunk coming out of the provider generator in the first generation
loop, which branches on `isinstance(chunk, dict)`. -/
inductive PChunk where
  | dict (d : PDict)
  | text (s : String)
deriving Repr, DecidableEq

/-- A turn event yielded by `ask_stream`. -/
inductive Event where
  | providerEvent (d : PDict)
  | stream (content : String)
  | content (chunk : String)
  | actionLoop (loop maxLoops : Nat)
  | actionDetected (names : List Json)
  | actionOutput (name : Json) (success : Bool) (output : String)
  | actionUpdate (data : Json)
  | permissionRequired (actionName : Json) (actionArgs : Json)
  | jsonContent (message : String) (json : Json) (reason : String)
  | errorEvent (err : String)
deriving Repr

/-- Does an event carry `status == "json_content"` (either the final
analysis event of lines 952-968 or a forwarded provider dict)? -/
def Event.isJsonContent : Event → Bool
  | .jsonContent _ _ _ => true
  | .providerEvent d => d.status == "json_content"
  | _ => false

/-- Is the event a `permission_required` pause? -/
def Event.isPermissionRequired : Event → Bool
  | .permissionRequired _ _ => true
  | _ => false

/-- Result of one plugin execution as observed through
`future.result()`: the executor's result dict, or a re-raised exception. -/
inductive ExecOutcome where
  | success (output : Json)
  | failure (error : String) (partOut : Option String)
  | raised (msg : String)
deriving Repr

/-- A chat history message. -/
structure Msg where
  role : String
  content : String
deriving Repr, DecidableEq

/-- The collaborators of one `ask_stream` call. -/
structure OrkParams where
  /-- Chunks yielded by the k-th `provider.generate` call of the first
  loop, then an optional exception raised after them. -/
  gen : Nat → List PChunk × Option String
  /-- `extract_json` (`modules/utils.py`); its `json.loads` core is taken
  as given. -/
  extract : String → Option Json
  /-- `registry.get_action(name)` is truthy. -/
  hasAction : String → Bool
  /-- The executor result for a submitted `(name, args)`. -/
  execRes : Json → Json → ExecOutcome
  /-- The progress dicts delivered through an action's callback queue. -/
  progress : Json → List Json
  /-- `build_system_prompt(..., action_data=obs, prompt_id="action_formater",
  user_message=prompt)` as a function of the observations. -/
  fmtPrompt : String → String
  /-- The caller's prompt. -/
  prompt : String

/-- The local variables of the first generation loop
(`while current_loop <= max_loops`, core.py lines 354-612). -/
structure L1State where
  currentLoop : Nat
  resumeAction : Bool
  jsonData : Option Json
  foundResumeActions : List Json
  history : List Msg
  currentPrompt : String
  sysPrompt : String
  genIdx : Nat
  accThinking : String
deriving Repr

/-- Folding one provider chunk in the first loop (lines 408-425): dicts
update the thinking accumulator and are yielded verbatim; strings extend
`full_content` and come out as `stream` events. -/
def genStep1 (st : List Event × String × String) (c : PChunk) :
    List Event × String × String :=
  let (evs, fc, th) := st
  match c with
  | .dict d =>
      let th' :=
        if d.status == "thinking" then th ++ d.chunk
        else if d.status == "thinking_finished" then
          (if d.thinking ≠ "" then d.thinking else th)
        else th
      (evs ++ [.providerEvent d], fc, th')
  | .text s => (evs ++ [.stream s], fc ++ s, th)

/-- The resume pre-phase extraction (lines 326-339): a dict carrying
`action`, a list of such dicts, or the raw entries of an `actions`
wrapper.  Note the wrapper entries are extended unnormalised. -/
def resumeExtractActions (json_data : Option Json) : List Json :=
  match json_data with
  | none => []
  | some j =>
      if ¬ j.truthy then []
      else
        match j with
        | .obj fields =>
            if hasKey fields "action" then [.obj fields]
            else
              match lookupKey fields "actions" with
              | some (.arr acts) => acts
              | _ => []
        | .arr items =>
            items.filterMap fun it =>
              match it with
              | .obj f => if hasKey f "action" then some (.obj f) else none
              | _ => none
        | _ => []

/-- The action-normalisation block shared by lines 448-466 and 707-728:
under `if json_data and isinstance(json_data, dict) and "actions" in
json_data:`, every list entry containing a `name` becomes
`{"name": ..., "args": ...}` with `parameters` accepted as a mapping or a
list of `{name, value}` records.  `.error` models a raised `TypeError`
from the `in` tests on non-container entries.  (A list-record whose `name`
is a non-string truthy value would key the args dict by a non-string in
CPython; the model skips it — the claims never produce one.) -/
def normalizeActionsBlock (json_data : Option Json) :
    Except String (List Json) :=
  match json_data with
  | some (.obj fields) =>
      if (Json.obj fields).truthy && hasKey fields "actions" then
        match lookupKey fields "actions" with
        | some (.arr ras) =>
            ras.foldlM
              (fun acc ra =>
                match pyContainsKey "name" ra with
                | .error e => .error e
                | .ok false => .ok acc
                | .ok true =>
                    match pyIndexKey "name" ra with
                    | .error e => .error e
                    | .ok nameJ =>
                        match pyContainsKey "parameters" ra with
                        | .error e => .error e
                        | .ok hasParams =>
                            if hasParams then
                              match pyIndexKey "parameters" ra with
                              | .error e => .error e
                              | .ok (.obj p) =>
                                  .ok (acc ++ [Json.obj
                                    [("name", nameJ), ("args", .obj p)]])
                              | .ok (.arr ps) =>
                                  match
                                    ps.foldlM
                                      (fun (ar : List (String × Json)) p =>
                                        match pyContainsKey "name" p with
                                        | .error e => Except.error e
                                        | .ok false => Except.ok ar
                                        | .ok true =>
                                            match pyIndexKey "name" p with
                                            | .error e => Except.error e
                                            | .ok (.str k) =>
                                                Except.ok (dictSet ar k
                                                  (jsonGetD p "value" (.str "")))
                                            | .ok _ => Except.ok ar)
                                      [] with
                                  | .error e => .error e
                                  | .ok ar =>
                                      .ok (acc ++ [Json.obj
                                        [("name", nameJ), ("args", .obj ar)]])
                              | .ok _ =>
                                  .ok (acc ++ [Json.obj
                                    [("name", nameJ), ("args", .obj [])]])
                            else
                              .ok (acc ++ [Json.obj
                                [("name", nameJ), ("args", .obj [])]]))
              []
        | _ => .ok []
      else .ok []
  | _ => .ok []

/-- The progress-drain handling of one queue message (lines 514-535 and
831-852): a `scanned` or `message` field becomes a progress `content`
line, and a `status == "match"` dict additionally becomes an
`action_update`.  A non-dict payload raises inside the drain's bare
`except`, which stops the drain; the model stops the per-action drain
there. -/
def progressEvents (name : Json) : List Json → List Event
  | [] => []
  | d :: rest =>
      match d with
      | .obj df =>
          let statusMsg :=
            if hasKey df "scanned" then
              "Scanned " ++ pyStr ((lookupKey df "scanned").getD .null) ++
                " items..."
            else if hasKey df "message" then
              pyStr ((lookupKey df "message").getD .null)
            else ""
          let msgEvs :=
            if statusMsg ≠ "" then
              [Event.content ("[" ++ pyStr name ++ " Progress]: " ++
                statusMsg ++ "\n")]
            else []
          let matchEvs :=
            match lookupKey df "status" with
            | some (.str "match") => [Event.actionUpdate (.obj df)]
            | _ => []
          msgEvs ++ matchEvs ++ progressEvents name rest
      | _ => []

/-- Completion handling of one action in the first loop's resume block
(lines 561-584): `obs_text` is `json.dumps` of the output on success, else
`Error: {error}`; the `action_output` event truncates to 500 characters.
A re-raised exception appends only an observation. -/
def completion1 (P : OrkParams) (name args : Json) :
    List Event × List String :=
  let evs := progressEvents name (P.progress name)
  match P.execRes name args with
  | .success out =>
      let obs := dumpsDefault out
      (evs ++ [.actionOutput name true (pyTake obs 500)],
       ["Action \x27" ++ pyStr name ++ "\x27 Result: " ++ obs])
  | .failure e _ =>
      let obs := "Error: " ++ e
      (evs ++ [.actionOutput name false (pyTake obs 500)],
       ["Action \x27" ++ pyStr name ++ "\x27 Result: " ++ obs])
  | .raised msg =>
      (evs, ["Action \x27" ++ pyStr name ++ "\x27 Failed: " ++ msg])

/-- The submit loop of the resume block (lines 482-507): `act["name"]` is
read outside the `try` (a `KeyError` escapes to the outer handler), while
`act["args"]` and the registry lookup sit inside it (failures skip the
action).  Returns the submitted `(name, args)` pairs and the events
yielded while preparing. -/
def prepareResumeActs (P : OrkParams) (acts : List Json) :
    Except String (List (Json × Json) × List Event) :=
  acts.foldlM
    (fun (acc : List (Json × Json) × List Event) act =>
      match pyIndexKey "name" act with
      | .error e => .error e
      | .ok nameJ =>
          match pyIndexKey "args" act with
          | .error _ => .ok acc
          | .ok argsJ =>
              let has :=
                match nameJ with
                | .str n => P.hasAction n
                | _ => false
              if has then
                .ok (acc.1 ++ [(nameJ, argsJ)],
                     acc.2 ++ [.content ("[Executing " ++ pyStr nameJ ++
                       "...]\n")])
              else .ok acc)
    ([], [])

/-- Loop-exit control of one iteration of the first generation loop. -/
inductive L1Control where
  | next
  | halt
deriving Repr, DecidableEq

/-- Output of one iteration of the first generation loop. -/
structure L1Out where
  state : L1State
  events : List Event
  executed : List (Json × Json)
  control : L1Control

/-- One iteration of the body of the first generation loop (core.py lines
354-612).  `halt` models the `return` after a generation error and the
outer `except` (line 994) that yields a final `error` event. -/
def loop1Iter (P : OrkParams) (s : L1State) : L1Out :=
  -- Generation (lines 370-430), skipped while resuming.
  let genTriple :=
    if ¬ s.resumeAction then
      let (chunks, exc) := P.gen s.genIdx
      (chunks.foldl genStep1 ([], "", s.accThinking), exc, s.genIdx + 1)
    else ((([] : List Event), "", s.accThinking), none, s.genIdx)
  let ((genEvents, fullContent, th), genErr, genIdx') := genTriple
  match genErr with
  | some e =>
      { state := { s with
                     resumeAction := false, genIdx := genIdx',
                     accThinking := th },
        events := genEvents ++ [.errorEvent e], executed := [],
        control := .halt }
  | none =>
      -- line 433: `resume_action = False`
      -- lines 440-441: commit a non-blank assistant response to history
      let history' :=
        if pyTrim fullContent ≠ "" then
          s.history ++ [{ role := "assistant", content := fullContent }]
        else s.history
      -- lines 448-466: extend `found_resume_actions` from the stale
      -- `json_data`
      match normalizeActionsBlock s.jsonData with
      | .error e =>
          { state := { s with
                         resumeAction := false, history := history',
                         genIdx := genIdx', accThinking := th },
            events := genEvents ++ [.errorEvent e], executed := [],
            control := .halt }
      | .ok newActs =>
          let found := s.foundResumeActions ++ newActs
          if found.isEmpty then
            -- lines 610-612
            { state := { s with
                           resumeAction := false, history := history',
                           foundResumeActions := found,
                           currentPrompt := P.prompt, genIdx := genIdx',
                           accThinking := th },
              events := genEvents, executed := [], control := .next }
          else
            -- lines 470-609
            match prepareResumeActs P found with
            | .error e =>
                { state := { s with
                               resumeAction := false,
                               history := history',
                               foundResumeActions := found,
                               genIdx := genIdx', accThinking := th },
                  events := genEvents ++
                    [.content "\n\n[System] Resuming Actions...\n"] ++
                    [.errorEvent e],
                  executed := [], control := .halt }
            | .ok (submitted, prepEvents) =>
                let comps := submitted.map fun nv => completion1 P nv.1 nv.2
                let compEvents := (comps.map (·.1)).flatten
                let observations := (comps.map (·.2)).flatten
                let newSys := P.fmtPrompt (joinStrs "\n" observations)
                -- lines 602-605: only rewritten when the history head is a
                -- system message
                let headIsSys :=
                  match history' with
                  | m :: _ => m.role == "system"
                  | [] => false
                let history'' :=
                  match history' with
                  | m :: rest =>
                      if m.role == "system" then
                        { m with content := newSys } :: rest
                      else m :: rest
                  | [] => []
                { state := { s with
                               resumeAction := false,
                               jsonData := s.jsonData,
                               foundResumeActions := found,
                               history := history'',
                               sysPrompt := if headIsSys then newSys
                                            else s.sysPrompt,
                               currentPrompt :=
                                 "Actions executed. Please formulate the response.",
                               currentLoop := 1, genIdx := genIdx',
                               accThinking := th },
                  events := genEvents ++
                    [.content "\n\n[System] Resuming Actions...\n"] ++
                    prepEvents ++ compEvents,
                  executed := submitted, control := .next }

/-- The running trace of the first generation loop. -/
structure L1Trace where
  state : L1State
  events : List Event
  executed : List (Json × Json)
  halted : Bool

/-- Run `n` guard-checked iterations of the first generation loop.  The
guard is the source's `current_loop <= max_loops` with `max_loops = 5`;
once the body `return`s (`halted`) no further iteration runs. -/
def loop1Run (P : OrkParams) (s0 : L1State) : Nat → L1Trace
  | 0 => { state := s0, events := [], executed := [], halted := false }
  | n + 1 =>
      let t := loop1Run P s0 n
      if t.halted ∨ 5 < t.state.currentLoop then t
      else
        let o := loop1Iter P t.state
        { state := o.state, events := t.events ++ o.events,
          executed := t.executed ++ o.executed,
          halted := o.control == L1Control.halt }

/-- The loop-local state of a plain (non-resume) call when the first loop
is entered (lines 244-304 with `resume_action` false): loop counter `0`,
no extracted actions, `json_data` undefined — modelled `none`, since the
resume branch that would set it was not taken. -/
def initL1State (sysPrompt : String) (history : List Msg) (prompt : String) :
    L1State :=
  { currentLoop := 0, resumeAction := false, jsonData := none,
    foundResumeActions := [], history := history, currentPrompt := prompt,
    sysPrompt := sysPrompt, genIdx := 0, accThinking := "" }

/-- The resume pre-phase (lines 306-351): extract from the latest
non-blank assistant message; with actions found the loop starts at
`current_loop = 1` still flagged as resuming, otherwise the call falls
back to plain generation — but `json_data` keeps the extracted value in
both cases. -/
def resumeInitState (P : OrkParams) (sysPrompt : String) (history : List Msg)
    : L1State :=
  let lastMsg :=
    ((history.reverse.find? fun m =>
        m.role == "assistant" && pyTrim m.content ≠ "").map (·.content)).getD ""
  let jd := P.extract lastMsg
  let found := resumeExtractActions jd
  if ¬ found.isEmpty then
    { currentLoop := 1, resumeAction := true, jsonData := jd,
      foundResumeActions := found, history := history,
      currentPrompt := P.prompt, sysPrompt := sysPrompt, genIdx := 0,
      accThinking := "" }
  else
    { currentLoop := 0, resumeAction := false, jsonData := jd,
      foundResumeActions := [], history := history, currentPrompt := P.prompt,
      sysPrompt := sysPrompt, genIdx := 0, accThinking := "" }

/-- The pre-request phase of `ask_stream` (lines 258-283): every action
registered with `trigger == "pre_request"` is executed synchronously
through `self.action_executor.execute`; a successful dict/list output is
pretty-printed, other outputs go through `str`; failures and raises
contribute no output.  The phase never touches `ActionCache` (nothing in
the repository calls it).  Returns the executed action names and the
collected `pre_request_outputs`. -/
def preRequestStep (exec : String → ExecOutcome)
    (acc : List String × List String) (kv : String × Json) :
    List String × List String :=
  let (name, meta) := kv
  let isPre :=
    match jsonGetD meta "trigger" .null with
    | .str t => t == "pre_request"
    | _ => false
  if isPre then
    match exec name with
    | .success out =>
        let outputStr :=
          match out with
          | .obj _ => dumpsIndent2 out
          | .arr _ => dumpsIndent2 out
          | _ => pyStr out
        (acc.1 ++ [name], acc.2 ++ ["### " ++ name ++ "\n" ++ outputStr])
    | .failure _ _ => (acc.1 ++ [name], acc.2)
    | .raised _ => (acc.1 ++ [name], acc.2)
  else acc

/-- The pre-request trigger test of the phase (`act_meta.get("trigger") ==
"pre_request"`). -/
def isPreRequestMeta (meta : Json) : Bool :=
  match jsonGetD meta "trigger" .null with
  | .str t => t == "pre_request"
  | _ => false

/-- See `preRequestStep`; the phase folds it over every registered
action. -/
def preRequestPhase (exec : String → ExecOutcome)
    (allActions : List (String × Json)) : List String × List String :=
  allActions.foldl (preRequestStep exec) ([], [])

/-! ### The second generation loop (`while current_loop < max_loops`,
core.py lines 619-992)

The first generation loop (lines 354-612) precedes this one in the same
function body and, as `ask_stream_loop1_diverges` below shows, it can only
be left through a `return` or a raised exception — both of which end the
generator — so this loop is dead code in every execution.  Its body is
embedded faithfully nonetheless, because claims C3 and C7 are about the
permission gate and the final-response analysis that live in it. -/

/-- Folding one provider event dict in the second loop (lines 670-696):
`thinking` events accumulate and are forwarded only when their chunk is
truthy; `thinking_finished` is always forwarded; `content` and
`json_content` extend (or, given a `raw` field, replace) the accumulated
content and are forwarded twice (the duplicated `yield result` at lines
695-696); any other status is silently dropped. -/
def loop2StreamStep (st : List Event × String × String) (d : PDict) :
    List Event × String × String :=
  let (evs, fcr, th) := st
  if d.status == "thinking" then
    if d.chunk ≠ "" then (evs ++ [.providerEvent d], fcr, th ++ d.chunk)
    else (evs, fcr, th)
  else if d.status == "thinking_finished" then
    (evs ++ [.providerEvent d], fcr,
     if d.thinking ≠ "" then d.thinking else th)
  else if d.status == "content" || d.status == "json_content" then
    let fcr' :=
      if d.status == "json_content" && d.raw.isSome then d.raw.getD ""
      else fcr ++ d.chunk
    (evs ++ [.providerEvent d, .providerEvent d], fcr', th)
  else (evs, fcr, th)

/-- Completion handling of one action in the second loop (lines 861-911):
the "smart output unwrap" turns a successful string output, or a
single-field `{"output": <str>}` dict, into the bare string; failures carry
the error and any partial output.  (The observation append at line 893
would raise `NameError` when the first loop's resume block never ran,
since `observations` is defined only there; the claims never reach a
completion through this loop, so the observations-defined variant is
modelled.) -/
def completion2 (P : OrkParams) (name args : Json) :
    List Event × List String :=
  let evs := progressEvents name (P.progress name)
  match P.execRes name args with
  | .success out =>
      let obs :=
        match out with
        | .str s => s
        | .obj fs =>
            if fs.length == 1 && hasKey fs "output" then
              match lookupKey fs "output" with
              | some (.str s) => s
              | _ => dumpsDefault out
            else dumpsDefault out
        | _ => dumpsDefault out
      (evs ++ [.actionOutput name true (pyTake obs 500)],
       ["Action \x27" ++ pyStr name ++ "\x27 Result: " ++ obs])
  | .failure e partOut =>
      let obs :=
        "Error: " ++ e ++
          (match partOut with
           | some p => "\n[Partial Output]: " ++ p
           | none => "")
      (evs ++ [.actionOutput name false (pyTake obs 500)],
       ["Action \x27" ++ pyStr name ++ "\x27 Result: " ++ obs])
  | .raised msg =>
      (evs, ["Action \x27" ++ pyStr name ++ "\x27 Failed: " ++ msg])

/-- How one iteration of the second generation loop ends: `continue` after
executing actions (line 942), `break` when none were found (line 944),
the `return` of the permission pause (line 795), or a raised exception
reaching the outer handler. -/
inductive L2Control where
  | continueLoop
  | breakLoop
  | returnStream
  | raisedErr
deriving Repr, DecidableEq

/-- Output of one iteration of the second generation loop. -/
structure L2Out where
  events : List Event
  executed : List (Json × Json)
  control : L2Control
  fullContentRaw : String

/-- One iteration of the body of the second generation loop (lines
619-944).  `provOut` is what `self.provider.generate(...)` yields for this
iteration (the provider is called with `return_json=return_json`, but the
providers in the repository never emit `json_content` themselves).  After
the `else: break` at line 944 the body ends: the final-response analysis
(lines 946-969, guarded by `return_json`) and the assistant raw-history
write (lines 971-992) sit after an `if`/`else` whose branches both leave
the loop, so they are unreachable, which is why `returnJson` cannot
influence the result.  The prompt/history updates of lines 916-941 are
carried by the `continue` control and elided here, as no claim reads
them. -/
def loop2Body (P : OrkParams) (db : PermDb) (today userId chatId : String)
    (_returnJson : Bool) (currentLoop : Nat) (provOut : List PDict) : L2Out :=
  -- line 621: the `action_loop` notification
  let headEvents :=
    if 0 < currentLoop then [Event.actionLoop (currentLoop + 1) 5] else []
  -- lines 669-696: stream the provider
  let (sevs, fcr, _th) := provOut.foldl loop2StreamStep ([], "", "")
  let evs := headEvents ++ sevs
  -- lines 698-728: extraction and normalisation
  match normalizeActionsBlock (P.extract fcr) with
  | .error e =>
      { events := evs ++ [.errorEvent e], executed := [],
        control := .raisedErr, fullContentRaw := fcr }
  | .ok found =>
      if found.isEmpty then
        -- lines 943-944: `else: break  # No valid actions`
        { events := evs, executed := [], control := .breakLoop,
          fullContentRaw := fcr }
      else
        -- lines 730-744
        let names := found.map fun a => jsonGetD a "name" .null
        let evs := evs ++
          [.actionDetected names,
           .content ("\n\n[System] Executing " ++ toString found.length ++
             " actions...\n")]
        -- lines 754-795: the permission gate pauses on the first action
        -- without permission (a non-string name binds into the SQL probe
        -- and matches no TEXT row)
        match found.find? (fun a =>
            match jsonGetD a "name" .null with
            | .str n => !(check_permission db today userId n (some chatId))
            | _ => true) with
        | some a =>
            { events := evs ++
                [.permissionRequired (jsonGetD a "name" .null)
                  (jsonGetD a "args" .null)],
              executed := [], control := .returnStream,
              fullContentRaw := fcr }
        | none =>
            -- lines 797-941: submit every action found in the registry,
            -- then drain progress and completions
            let submitted := found.filterMap fun a =>
              match jsonGetD a "name" .null with
              | .str n =>
                  if P.hasAction n then
                    some (Json.str n, jsonGetD a "args" .null)
                  else none
              | _ => none
            let comps := submitted.map fun nv => completion2 P nv.1 nv.2
            { events := evs ++ (comps.map (·.1)).flatten,
              executed := submitted, control := .continueLoop,
              fullContentRaw := fcr }

/-! ## Concrete scenarios used by the claim theorems -/

/-- Reading of the `sha256` stored inside a manifest's integrity block. -/
def manifestIntegritySha (m : Manifest) : Option Json :=
  match lookupKey m "integrity" with
  | some (.obj ib) => lookupKey ib "sha256"
  | _ => none

/-- A model response asking for the `say_hello` tool, as parsed by
`extract_json`: `{"actions": [{"name": "say_hello",
"parameters": {"name": "World"}}]}`. -/
def sayHelloActionsJson : Json :=
  .obj [("actions", .arr [.obj
    [("name", .str "say_hello"),
     ("parameters", .obj [("name", .str "World")])]])]

/-- Collaborators for the resume scenario of claim C3: the provider streams
one content dict per generation, extraction always finds the `say_hello`
request, the registry knows `say_hello`, and the executor succeeds. -/
def c3Params : OrkParams :=
  { gen := fun _ => ([.dict { status := "content", chunk := "ok" }], none),
    extract := fun _ => some sayHelloActionsJson,
    hasAction := fun n => n == "say_hello",
    execRes := fun _ _ => .success (.obj [("message", .str "Hello, World!")]),
    progress := fun _ => [],
    fmtPrompt := fun s => s,
    prompt := "hi" }

/-- Chat history at the resume call of claim C3: the last assistant message
is the tool request that was interrupted by the permission pause. -/
def c3History : List Msg :=
  [{ role := "system", content := "sys" },
   { role := "user", content := "hi" },
   { role := "assistant",
     content := "\x7b\"actions\": [\x7b\"name\": \"say_hello\", \"parameters\": \x7b\"name\": \"World\"\x7d\x7d]\x7d" }]

/-- The loop state entered by `ask_stream(..., resume_action=True)` in the
C3 scenario. -/
def c3Start : L1State := resumeInitState c3Params "sys" c3History

/-- Collaborators for the plain non-resume call of claim C1's witness: the
provider streams one string chunk per generation and finishes normally. -/
def c1Params : OrkParams :=
  { gen := fun _ => ([.text "Hello"], none),
    extract := fun _ => none,
    hasAction := fun _ => false,
    execRes := fun _ _ => .failure "unused" none,
    progress := fun _ => [],
    fmtPrompt := fun s => s,
    prompt := "hi" }

/-- Collaborators for claim C7's scenario: `return_json` was requested, the
provider streams the final answer `{"message": "Done."}` as plain content,
and extraction parses it to an object with a `message` field and no
`actions`. -/
def c7Params : OrkParams :=
  { gen := fun _ => ([], none),
    extract := fun _ => some (.obj [("message", .str "Done.")]),
    hasAction := fun _ => false,
    execRes := fun _ _ => .failure "unused" none,
    progress := fun _ => [],
    fmtPrompt := fun s => s,
    prompt := "hi" }

/-- The provider output of the C7 generation: one content chunk carrying
the final structured answer. -/
def c7Prov : List PDict :=
  [{ status := "content",
     chunk := "\x7b\"message\": \"Done.\"\x7d" }]

/-- A `.gplug` archive with a corrupted integrity block (claim C6's
witness): the stored sha256 is not the canonical hash of the manifest. -/
def c6BadArchive : Archive :=
  { isZip := true,
    manifest := some
      [("id", .str "evil"), ("name", .str "Evil"),
       ("version", .str "1.0.0"), ("actions", .arr []),
       ("integrity", .obj [("sha256", .str "deadbeef"),
                           ("signed_at", .str "2026-01-01T00:00:00")])],
    files := [("main.py", "print(1)")] }

/-- A well-formed unsigned archive (claim C10's witness). -/
def c10Archive : Archive :=
  { isZip := true,
    manifest := some
      [("id", .str "hello_world"), ("name", .str "Hello World"),
       ("version", .str "1.0.0"),
       ("actions", .arr [.obj [("name", .str "say_hello"),
                               ("type", .str "python")]])],
    files := [("main.py", "print(1)")] }

/-- A plugin directory for claim C5's witness. -/
def c5Dir : PluginDir :=
  { manifest :=
      [("id", .str "hello_world"), ("name", .str "Hello World"),
       ("version", .str "1.0.0"),
       ("actions", .arr [.obj [("name", .str "say_hello"),
                               ("type", .str "python")]])],
    files := [("main.py", "print(1)")] }

/-- An active scheduled task used by claim C9's witness. -/
def c9Task : Task :=
  { id := "t1", action := "say_hello",
    schedule := some "*/5 3 * * *", status := "active" }

/-- A stand-in for `hashlib.sha256(...).hexdigest()` in witnesses: a pure
function with non-empty output (a real hex digest is 64 characters). -/
def witnessSha (s : String) : String :=
  "h" ++ toString s.length

/-! ## Helper lemmas -/

/-- Looking up the key just stored finds the stored value. -/
theorem lookupKey_dictSet_self {α : Type} (l : List (String × α)) (k : String)
    (v : α) : lookupKey (dictSet l k v) k = some v := by
  induction l with
  | nil => simp [dictSet, lookupKey]
  | cons p rest ih =>
      obtain ⟨k', v'⟩ := p
      by_cases h : k' = k <;> simp [dictSet, lookupKey, h, ih]

/-- Storing under one key leaves lookups of other keys unchanged. -/
theorem lookupKey_dictSet_ne {α : Type} (l : List (String × α)) (k k' : String)
    (v : α) (h : k' ≠ k) : lookupKey (dictSet l k v) k' = lookupKey l k' := by
  induction l with
  | nil => simp [dictSet, lookupKey, Ne.symm h]
  | cons p rest ih =>
      obtain ⟨k₀, v₀⟩ := p
      by_cases h0 : k₀ = k
      · subst h0
        simp [dictSet, lookupKey, Ne.symm h]
      · simp [dictSet, lookupKey, h0, ih]

/-- Storing an `integrity` entry does not change the integrity-stripped
manifest. -/
theorem stripIntegrity_dictSet (m : Manifest) (v : Json) :
    stripIntegrity (dictSet m "integrity" v) = stripIntegrity m := by
  induction m with
  | nil => rfl
  | cons p rest ih =>
      obtain ⟨k, w⟩ := p
      by_cases h : k = "integrity"
      · subst h
        simp [dictSet, stripIntegrity, List.filter]
      · have hset : dictSet ((k, w) :: rest) "integrity" v =
            (k, w) :: dictSet rest "integrity" v := by
          simp [dictSet, h]
        rw [hset]
        simp only [stripIntegrity] at ih ⊢
        simp only [List.filter_cons]
        simp [h]
        simpa using ih

/-- Stripping commutes with appending a non-integrity key, and the
canonical hash only reads the stripped manifest. -/
theorem calculate_manifest_hash_dictSet_integrity (sha : String → String)
    (m : Manifest) (v : Json) :
    calculate_manifest_hash sha (dictSet m "integrity" v) =
      calculate_manifest_hash sha m := by
  unfold calculate_manifest_hash
  rw [stripIntegrity_dictSet]

/-- Looking up the cache key just stored finds the stored entry. -/
theorem cacheLookup_cacheStore_self (c : Cache) (k : String) (e : CacheEntry) :
    cacheLookup (cacheStore c k e) k = some e := by
  induction c with
  | nil => simp [cacheStore, cacheLookup]
  | cons p rest ih =>
      obtain ⟨k', e'⟩ := p
      by_cases h : k' = k <;> simp [cacheStore, cacheLookup, h, ih]

/-! ## Claim C4 — `check_permission` / `grant_permission` semantics -/

/-- Claim C4 (counterexample).  The claim's biconditional fails at an
empty-string `chatId`: `grant_permission` happily stores a `session` row
with `chat_id = ""` , and the claim's right-hand side
(`claimedPermissionC4`) accepts it, but `check_permission`'s `if chat_id:`
treats the supplied `""` as absent and skips the session probe, returning
false. -/
theorem check_permission_empty_chat_counterexample :
    grant_permission [] "2026-10-12" "u1" "say_hello" "session" (some "") =
      [{ userId := "u1", actionName := "say_hello", scope := "session",
         chatId := some "", expiresAt := none }] ∧
    check_permission
      [{ userId := "u1", actionName := "say_hello", scope := "session",
         chatId := some "", expiresAt := none }]
      "2026-10-12" "u1" "say_hello" (some "") = false ∧
    claimedPermissionC4
      [{ userId := "u1", actionName := "say_hello", scope := "session",
         chatId := some "", expiresAt := none }]
      "2026-10-12" "u1" "say_hello" (some "") = true := by
  refine ⟨rfl, by decide, by decide⟩

/-- For a fixed row, the `today` probe date test holds iff the row stores a
date at or after today. -/
theorem expiresMatch_iff (e : Option String) (today : String) :
    (match e with
     | some d => decide (today ≤ d)
     | none => false) = true ↔ ∃ d, e = some d ∧ today ≤ d := by
  cases e <;> simp

/-- Claim C4 (amended): `check_permission` returns true iff the store holds
an `always` grant for `(userId, actionName)`, or a `today` grant whose
stored date is ≥ the current date, or — when a *non-empty* `chatId` is
supplied — a `session` grant whose stored chatId equals it; and
`grant_permission` with scope `once` stores nothing. -/
theorem check_permission_characterisation (db : PermDb) (today u a : String)
    (chat : Option String) :
    (check_permission db today u a chat = true ↔
      ((∃ r ∈ db, r.userId = u ∧ r.actionName = a ∧ r.scope = "always") ∨
       (∃ r ∈ db, r.userId = u ∧ r.actionName = a ∧ r.scope = "today" ∧
          ∃ d, r.expiresAt = some d ∧ today ≤ d) ∨
       (∃ c, chat = some c ∧ c ≠ "" ∧
          ∃ r ∈ db, r.userId = u ∧ r.actionName = a ∧ r.scope = "session" ∧
            r.chatId = some c))) ∧
    (∀ c', grant_permission db today u a "once" c' = db) := by
  refine ⟨?_, fun c' => by simp [grant_permission]⟩
  have hAlways :
      (db.any fun r =>
        r.userId = u ∧ r.actionName = a ∧ r.scope = "always") = true ↔
        ∃ r ∈ db, r.userId = u ∧ r.actionName = a ∧ r.scope = "always" := by
    simp [List.any_eq_true]
  have hToday :
      (db.any fun r =>
        r.userId == u && r.actionName == a && r.scope == "today" &&
          match r.expiresAt with
          | some d => decide (today ≤ d)
          | none => false) = true ↔
        ∃ r ∈ db, r.userId = u ∧ r.actionName = a ∧ r.scope = "today" ∧
          ∃ d, r.expiresAt = some d ∧ today ≤ d := by
    simp only [List.any_eq_true, Bool.and_eq_true, beq_iff_eq,
      expiresMatch_iff]
    constructor
    · rintro ⟨r, hr, ⟨⟨h1, h2⟩, h3⟩, h4⟩
      exact ⟨r, hr, h1, h2, h3, h4⟩
    · rintro ⟨r, hr, h1, h2, h3, h4⟩
      exact ⟨r, hr, ⟨⟨h1, h2⟩, h3⟩, h4⟩
  rcases chat with _ | c
  · have hred : check_permission db today u a none =
        ((db.any fun r =>
            r.userId = u ∧ r.actionName = a ∧ r.scope = "always") ||
         (db.any fun r =>
            r.userId == u && r.actionName == a && r.scope == "today" &&
              match r.expiresAt with
              | some d => decide (today ≤ d)
              | none => false) || false) := rfl
    rw [hred]
    simp only [Bool.or_eq_true]
    rw [hAlways, hToday]
    simp [or_assoc]
  · have hred : check_permission db today u a (some c) =
        ((db.any fun r =>
            r.userId = u ∧ r.actionName = a ∧ r.scope = "always") ||
         (db.any fun r =>
            r.userId == u && r.actionName == a && r.scope == "today" &&
              match r.expiresAt with
              | some d => decide (today ≤ d)
              | none => false) ||
         (c ≠ "" &&
          db.any fun r =>
            r.userId = u ∧ r.actionName = a ∧
              r.scope = "session" ∧ r.chatId = some c)) := rfl
    rw [hred]
    simp only [Bool.or_eq_true]
    rw [hAlways, hToday]
    have hS :
        (c ≠ "" &&
          db.any fun r =>
            r.userId = u ∧ r.actionName = a ∧
              r.scope = "session" ∧ r.chatId = some c) = true ↔
          (c ≠ "" ∧ ∃ r ∈ db, r.userId = u ∧ r.actionName = a ∧
            r.scope = "session" ∧ r.chatId = some c) := by
      simp [List.any_eq_true, Bool.and_eq_true]
    rw [hS]
    constructor
    · rintro ((h | h) | ⟨hne, hrest⟩)
      · exact Or.inl h
      · exact Or.inr (Or.inl h)
      · exact Or.inr (Or.inr ⟨c, rfl, hne, hrest⟩)
    · rintro (h | h | ⟨c', hc', hne, hrest⟩)
      · exact Or.inl (Or.inl h)
      · exact Or.inl (Or.inr h)
      · obtain rfl : c = c' := Option.some.inj hc'
        exact Or.inr ⟨hne, hrest⟩

/-! ## Claim C8 — `ActionCache` stale-while-revalidate semantics -/

/-- Claim C8 (confirmed).  After `set` with a positive ttl, a `get` with
the same ttl within `ttl` seconds of the set returns the stored value; a
`get` at or after `ttl` seconds returns nothing while `get_stale` still
returns the value; and with `ttl ≤ 0`, `get` returns nothing and `set`
stores nothing. -/
theorem actionCache_swr (c : Cache) (t0 : ℚ) (name uid : String)
    (data : Json) (ttl : Int) (hp : 0 < ttl) :
    (∀ t : ℚ, t - t0 < (ttl : ℚ) →
      cacheGet (cacheSet c t0 name uid data ttl) t name uid ttl = some data) ∧
    (∀ t : ℚ, (ttl : ℚ) ≤ t - t0 →
      cacheGet (cacheSet c t0 name uid data ttl) t name uid ttl = none ∧
      cacheGetStale (cacheSet c t0 name uid data ttl) name uid = some data) ∧
    (∀ (ttl' : Int) (t : ℚ) (c' : Cache), ttl' ≤ 0 →
      cacheGet c' t name uid ttl' = none ∧
      cacheSet c' t name uid data ttl' = c') := by
  have hset : cacheSet c t0 name uid data ttl =
      cacheStore c (cacheKey name uid)
        { data := data, timestamp := t0, ttl := ttl } := by
    simp [cacheSet, not_le.mpr hp]
  have hlook :=
    cacheLookup_cacheStore_self c (cacheKey name uid)
      { data := data, timestamp := t0, ttl := ttl }
  refine ⟨fun t ht => ?_, fun t ht => ⟨?_, ?_⟩, fun ttl' t c' h0 => ⟨?_, ?_⟩⟩
  · simp [cacheGet, hset, hlook, not_le.mpr hp, ht]
  · simp [cacheGet, hset, hlook, not_le.mpr hp, not_lt.mpr ht]
  · simp [cacheGetStale, hset, hlook]
  · simp [cacheGet, h0]
  · simp [cacheSet, h0]

/-- Claim C8 (witness): a concrete run of the cache at ttl 3. -/
theorem actionCache_swr_witness :
    cacheGet (cacheSet [] 0 "sys_info" "u1" (Json.str "v") 3) 2
        "sys_info" "u1" 3 = some (Json.str "v") ∧
    cacheGet (cacheSet [] 0 "sys_info" "u1" (Json.str "v") 3) 5
        "sys_info" "u1" 3 = none ∧
    cacheGetStale (cacheSet [] 0 "sys_info" "u1" (Json.str "v") 3)
        "sys_info" "u1" = some (Json.str "v") ∧
    cacheGet [] 7 "sys_info" "u1" 0 = none := by
  have h := actionCache_swr [] 0 "sys_info" "u1" (Json.str "v") 3
    (by norm_num)
  refine ⟨h.1 2 (by norm_num), (h.2.1 5 (by norm_num)).1,
    (h.2.1 5 (by norm_num)).2, (h.2.2 0 7 [] (by norm_num)).1⟩

/-! ## Claim C9 — the cron-subset matcher -/

/-- Claim C9 (counterexample).  The claim says every field, the hour field
included, may take the `*/N` form and that the match test returns true
exactly when minute and hour each match.  At schedule `"0 */2 * * *"` and
clock 02:00 both fields match in the claim's sense, yet `_should_run`
returns false: the hour branch calls `int("*/2")`, which raises, and the
bare `except` swallows it into `False`. -/
theorem shouldRun_hour_interval_counterexample :
    pySplitWs "0 */2 * * *" = ["0", "*/2", "*", "*", "*"] ∧
    specFieldMatchesC9 "0" 0 = true ∧
    specFieldMatchesC9 "*/2" 2 = true ∧
    shouldRun "0 */2 * * *" 0 2 = false := by
  refine ⟨by decide, by decide, by decide, by decide⟩

/-- Claim C9 (amended): for a five-field schedule, the match test equals
the conjunction of the claim's per-field matcher on the minute and hour
fields *provided the hour field is not of the `*/N` form*; an hour field
that is neither `*` nor a literal integer (every `*/N` hour in particular)
never matches; day, month and weekday are ignored; and a scheduler tick
runs exactly the active tasks with a truthy schedule that matches the
tick's clock time. -/
theorem shouldRun_characterisation (sched minute hour d mo w : String)
    (m h : Nat) (hs : pySplitWs sched = [minute, hour, d, mo, w]) :
    (pyStartsWith hour "*/" = false →
      shouldRun sched m h =
        (specFieldMatchesC9 minute m && specFieldMatchesC9 hour h)) ∧
    (hour ≠ "*" → pyInt? hour = none → shouldRun sched m h = false) ∧
    (∀ (tasks : List Task) (t : Task),
      t ∈ schedulerTick tasks m h ↔
        (t ∈ tasks ∧ t.status = "active" ∧
          ∃ s, t.schedule = some s ∧ s ≠ "" ∧ shouldRun s m h = true)) := by
  have hsplit : shouldRun sched m h =
      ((match checkMinuteField minute m with
        | some b => b
        | none => false) &&
       (match checkHourField hour h with
        | some b => b
        | none => false)) := by
    unfold shouldRun
    rw [hs]
    rcases hcm : checkMinuteField minute m with _ | b
    · simp [hcm]
    · cases b
      · simp [hcm]
      · rcases hch : checkHourField hour h with _ | ok <;> simp [hcm, hch]
  have hmin :
      (match checkMinuteField minute m with
       | some b => b
       | none => false) = specFieldMatchesC9 minute m := by
    unfold checkMinuteField specFieldMatchesC9
    by_cases h1 : minute = "*"
    · simp [h1]
    · by_cases h2 : pyStartsWith minute "*/"
      · simp only [h1, h2, if_false, if_true]
        rcases hpi : pyInt? (pyDrop minute 2) with _ | n
        · simp
        · by_cases h3 : n = 0 <;> simp [h3]
      · simp only [h1, h2, if_false, Bool.false_eq_true]
        rcases hpi : pyInt? minute with _ | v <;> simp
  refine ⟨fun hstar => ?_, fun hne hint => ?_, fun tasks t => ?_⟩
  · have hhour :
        (match checkHourField hour h with
         | some b => b
         | none => false) = specFieldMatchesC9 hour h := by
      unfold checkHourField specFieldMatchesC9
      by_cases h1 : hour = "*"
      · simp [h1]
      · simp only [h1, hstar, if_false, Bool.false_eq_true]
        rcases hpi : pyInt? hour with _ | v <;> simp
    rw [hsplit, hmin, hhour]
  · have hhour : checkHourField hour h = none := by
      unfold checkHourField
      simp [hne, hint]
    rw [hsplit, hhour]
    simp
  · unfold schedulerTick
    simp only [List.mem_filter, Bool.and_eq_true, beq_iff_eq]
    constructor
    · rintro ⟨hmem, hst, hsch⟩
      refine ⟨hmem, hst, ?_⟩
      rcases hsc : t.schedule with _ | str
      · rw [hsc] at hsch; exact absurd hsch (by simp)
      · rw [hsc] at hsch
        simp only [Bool.and_eq_true, decide_eq_true_eq] at hsch
        exact ⟨str, rfl, hsch.1, hsch.2⟩
    · rintro ⟨hmem, hst, str, hsc, hne, hrun⟩
      refine ⟨hmem, hst, ?_⟩
      rw [hsc]
      simp [hne, hrun]

/-- Claim C9 (witness): the amended characterisation evaluated on the
schedule `"*/5 3 * * *"` at 03:10 and one active task carrying it. -/
theorem shouldRun_characterisation_witness :
    shouldRun "*/5 3 * * *" 10 3 =
      (specFieldMatchesC9 "*/5" 10 && specFieldMatchesC9 "3" 3) ∧
    shouldRun "*/5 3 * * *" 10 3 = true ∧
    c9Task ∈ schedulerTick [c9Task] 10 3 := by
  have hc := shouldRun_characterisation "*/5 3 * * *" "*/5" "3" "*" "*" "*"
    10 3 (by decide)
  refine ⟨hc.1 (by decide), by decide, ?_⟩
  exact (hc.2.2 [c9Task] c9Task).mpr
    ⟨by simp, rfl, "*/5 3 * * *", rfl, by decide, by decide⟩

/-! ## Claim C5 — pack/unpack integrity round trip -/

/-- Verification accepts a freshly signed manifest: the stored hash is
computed over the manifest without its integrity block, and re-computing
over the signed manifest strips that block again. -/
theorem verify_sign_manifest (sha : String → String) (now : String)
    (m : Manifest) (hsha : calculate_manifest_hash sha m ≠ "") :
    verify_manifest sha (sign_manifest sha now m) =
      .ok (true, "Integrity verified") := by
  unfold verify_manifest sign_manifest
  rw [lookupKey_dictSet_self]
  simp only [lookupKey, if_pos rfl, optTruthy, Json.truthy]
  rw [calculate_manifest_hash_dictSet_integrity]
  simp [hsha]

/-- Claim C5 (confirmed).  Packing a plugin directory and unpacking the
resulting archive with verification succeeds, and the unpacked manifest's
`integrity.sha256` is exactly the SHA-256 of the original manifest
JSON-serialised without its integrity field with sorted keys and
separators `(",", ":")` — i.e. `sha (dumpsCanonical (stripIntegrity P))`.
The hypotheses say the manifest carries a string `id` (a valid manifest)
and that the digest is non-empty (true of every real SHA-256 hex
digest). -/
theorem pack_unpack_integrity (sha : String → String) (now target : String)
    (d : PluginDir) (pid : String) (fs : PluginFS)
    (hid : lookupKey d.manifest "id" = some (.str pid))
    (hsha : calculate_manifest_hash sha d.manifest ≠ "") :
    (unpack_plugin sha (pack_plugin sha now d).2 target true fs).1 =
      .ok (dictSet (sign_manifest sha now d.manifest) "_path"
        (.str (target ++ "/" ++ pid))) ∧
    manifestIntegritySha
        (dictSet (sign_manifest sha now d.manifest) "_path"
          (.str (target ++ "/" ++ pid))) =
      some (.str (sha (dumpsCanonical (Json.obj (stripIntegrity d.manifest))))) := by
  have hidS : lookupKey (sign_manifest sha now d.manifest) "id" =
      some (.str pid) := by
    unfold sign_manifest
    rw [lookupKey_dictSet_ne _ _ _ _ (by decide), hid]
  constructor
  · show (unpack_plugin sha
      { isZip := true, manifest := some (sign_manifest sha now d.manifest),
        files := d.files } target true fs).1 = _
    simp [unpack_plugin, hidS, verify_sign_manifest sha now d.manifest hsha]
  · unfold manifestIntegritySha
    rw [lookupKey_dictSet_ne _ _ _ _ (by decide)]
    unfold sign_manifest
    rw [lookupKey_dictSet_self]
    rfl

/-- Claim C5 (witness): the round trip on a concrete plugin directory. -/
theorem pack_unpack_integrity_witness :
    (unpack_plugin witnessSha
        (pack_plugin witnessSha "2026-01-01T00:00:00" c5Dir).2
        "data/plugins" true []).1 =
      .ok (dictSet
        (sign_manifest witnessSha "2026-01-01T00:00:00" c5Dir.manifest)
        "_path" (.str "data/plugins/hello_world")) ∧
    manifestIntegritySha
        (dictSet
          (sign_manifest witnessSha "2026-01-01T00:00:00" c5Dir.manifest)
          "_path" (.str "data/plugins/hello_world")) =
      some (.str (witnessSha
        (dumpsCanonical (Json.obj (stripIntegrity c5Dir.manifest))))) :=
  pack_unpack_integrity witnessSha "2026-01-01T00:00:00" "data/plugins"
    c5Dir "hello_world" [] rfl (by decide)

/-! ## Claim C6 — integrity mismatch rejects the install -/

/-- On a manifest whose integrity block does not store the canonical hash
as a string, verification never succeeds: it reports invalid or raises. -/
theorem verify_manifest_mismatch (sha : String → String) (m : Manifest)
    (ib : List (String × Json))
    (hint : lookupKey m "integrity" = some (.obj ib))
    (hbad : lookupKey ib "sha256" ≠
      some (.str (calculate_manifest_hash sha m))) :
    (∃ e, verify_manifest sha m = .error e) ∨
    (∃ msg, verify_manifest sha m = .ok (false, msg)) := by
  unfold verify_manifest
  rw [hint]
  rcases hst : lookupKey ib "sha256" with _ | j
  · right
    exact ⟨"Invalid integrity block: missing sha256",
      by simp [optTruthy, hst]⟩
  · rcases j with _ | b | n | str | xs | fs
    · right
      exact ⟨"Invalid integrity block: missing sha256",
        by simp [optTruthy, Json.truthy, hst]⟩
    · cases b
      · right
        exact ⟨"Invalid integrity block: missing sha256",
          by simp [optTruthy, Json.truthy, hst]⟩
      · left
        exact ⟨"TypeError: value is not subscriptable",
          by simp [optTruthy, Json.truthy, hst]⟩
    · by_cases hn : n = 0
      · right
        exact ⟨"Invalid integrity block: missing sha256",
          by simp [optTruthy, Json.truthy, hst, hn]⟩
      · left
        exact ⟨"TypeError: value is not subscriptable",
          by simp [optTruthy, Json.truthy, hst, hn]⟩
    · by_cases hh : str = ""
      · right
        exact ⟨"Invalid integrity block: missing sha256",
          by simp [optTruthy, Json.truthy, hst, hh]⟩
      · have hne : ¬ calculate_manifest_hash sha m = str := by
          intro hcontra
          exact hbad (by rw [hst, hcontra])
        right
        exact ⟨"Integrity mismatch: expected " ++ pyTake str 16 ++
            "..., got " ++ pyTake (calculate_manifest_hash sha m) 16 ++ "...",
          by simp [optTruthy, Json.truthy, hst, hh, hne]⟩
    · rcases xs with _ | ⟨x, xs⟩
      · right
        exact ⟨"Invalid integrity block: missing sha256",
          by simp [optTruthy, Json.truthy, hst]⟩
      · left
        exact ⟨"TypeError: value is not subscriptable",
          by simp [optTruthy, Json.truthy, hst]⟩
    · rcases fs with _ | ⟨f, fs⟩
      · right
        exact ⟨"Invalid integrity block: missing sha256",
          by simp [optTruthy, Json.truthy, hst]⟩
      · left
        exact ⟨"TypeError: value is not subscriptable",
          by simp [optTruthy, Json.truthy, hst]⟩

/-- Claim C6 (confirmed).  For every archive whose manifest carries an
integrity block whose `sha256` differs from the canonical hash of the
manifest minus that block, `install_plugin` returns an error, the plugin
file system is untouched (no files remain at the target path), and the
registry's action and plugin maps are unchanged. -/
theorem install_integrity_mismatch_rejected (sha : String → String)
    (reg : Registry) (fs : PluginFS) (ar : Archive) (uid : Option String)
    (scope : String) (m : Manifest) (ib : List (String × Json))
    (hman : ar.manifest = some m)
    (hint : lookupKey m "integrity" = some (.obj ib))
    (hbad : lookupKey ib "sha256" ≠
      some (.str (calculate_manifest_hash sha m))) :
    (∃ e, (install_plugin sha reg fs ar uid scope).1 = .error e) ∧
    (install_plugin sha reg fs ar uid scope).2.1 = reg ∧
    (install_plugin sha reg fs ar uid scope).2.2 = fs := by
  have hunpack : ∀ td, ∃ e,
      unpack_plugin sha ar td true fs = (.error e, fs) := by
    intro td
    unfold unpack_plugin
    rcases hz : ar.isZip with _ | _
    · exact ⟨"Invalid .gplug file (not a ZIP archive)", by simp [hz]⟩
    · rw [hman]
      rcases verify_manifest_mismatch sha m ib hint hbad with ⟨e, he⟩ | ⟨msg, hm⟩
      · exact ⟨e, by simp [he]⟩
      · exact ⟨"Integrity check failed: " ++ msg, by simp [hm]⟩
  unfold install_plugin
  by_cases hsc : scope = "system"
  · obtain ⟨e, he⟩ := hunpack "data/plugins"
    simp [hsc, he]
  · rcases uid with _ | u
    · simp [hsc]
    · obtain ⟨e, he⟩ := hunpack ("bot_data/users/" ++ u ++ "/plugins")
      simp [hsc, he]

/-- Claim C6 (witness): a concrete corrupted archive is rejected with the
registry and file system unchanged. -/
theorem install_integrity_mismatch_rejected_witness :
    (match (install_plugin witnessSha { actions := [], plugins := [] } []
        c6BadArchive none "system").1 with
     | .error _ => true
     | .ok _ => false) = true ∧
    (install_plugin witnessSha { actions := [], plugins := [] } []
      c6BadArchive none "system").2.1 = { actions := [], plugins := [] } ∧
    (install_plugin witnessSha { actions := [], plugins := [] } []
      c6BadArchive none "system").2.2 = [] := by
  have hbad : lookupKey [("sha256", Json.str "deadbeef"),
      ("signed_at", Json.str "2026-01-01T00:00:00")] "sha256" ≠
      some (Json.str (calculate_manifest_hash witnessSha
        (c6BadArchive.manifest.getD []))) := by
    intro hcontra
    have h1 : some (Json.str "deadbeef") =
        some (Json.str (calculate_manifest_hash witnessSha
          (c6BadArchive.manifest.getD []))) := by
      rw [← hcontra]
      rfl
    have h2 := Json.str.inj (Option.some.inj h1)
    revert h2
    decide
  have h := install_integrity_mismatch_rejected witnessSha
    { actions := [], plugins := [] } [] c6BadArchive none "system"
    (c6BadArchive.manifest.getD [])
    [("sha256", .str "deadbeef"), ("signed_at", .str "2026-01-01T00:00:00")]
    rfl rfl hbad
  obtain ⟨⟨e, he⟩, h2, h3⟩ := h
  exact ⟨by rw [he], h2, h3⟩

/-! ## Claim C10 — unsigned archives and integrity checking -/

/-- Claim C10 (evaluated at the failing input).  The integrity half of the
claim holds: a manifest with no integrity block verifies as valid, so
integrity checking never rejects an unsigned archive, and `unpack_plugin`
with verification extracts it without error.  But the installation half
fails: `install_plugin` then calls `_register_actions_from_manifest` on
the unpacked manifest, which reads `manifest["_role"]` — a key that
`unpack_plugin` never sets (it sets only `_path`) — so every install, of a
signed or unsigned archive alike, raises `KeyError: '_role'` after the
files were already moved to the target path, leaving the registry maps
untouched. -/
theorem unsigned_install_keyerror (sha : String → String) (reg : Registry)
    (fs : PluginFS) (ar : Archive) (m : Manifest) (pid : String)
    (hzip : ar.isZip = true) (hman : ar.manifest = some m)
    (hnoint : lookupKey m "integrity" = none)
    (hid : lookupKey m "id" = some (.str pid))
    (hrole : lookupKey m "_role" = none) :
    (∀ m', lookupKey m' "integrity" = none →
      verify_manifest sha m' =
        .ok (true, "No integrity lock (unverified plugin)")) ∧
    (unpack_plugin sha ar "data/plugins" true fs).1 =
      .ok (dictSet m "_path" (.str ("data/plugins/" ++ pid))) ∧
    (install_plugin sha reg fs ar none "system").1 =
      .error "KeyError: \x27_role\x27" ∧
    (install_plugin sha reg fs ar none "system").2.1 = reg ∧
    (install_plugin sha reg fs ar none "system").2.2 =
      dictSet fs ("data/plugins/" ++ pid)
        { manifest := some m, files := ar.files } := by
  have hver : ∀ m', lookupKey m' "integrity" = none →
      verify_manifest sha m' =
        .ok (true, "No integrity lock (unverified plugin)") := by
    intro m' hm'
    unfold verify_manifest
    rw [hm']
  have hunp : unpack_plugin sha ar "data/plugins" true fs =
      (.ok (dictSet m "_path" (.str ("data/plugins/" ++ pid))),
       dictSet fs ("data/plugins/" ++ pid)
         { manifest := some m, files := ar.files }) := by
    unfold unpack_plugin
    rw [hzip, hman]
    simp [hver m hnoint, hid]
  have hreg : register_actions_from_manifest
      (dictSet m "_path" (.str ("data/plugins/" ++ pid))) reg.actions =
        .error "KeyError: \x27_role\x27" := by
    unfold register_actions_from_manifest
    rw [lookupKey_dictSet_ne _ _ _ _ (by decide), hid,
        lookupKey_dictSet_ne _ _ _ _ (by decide), hrole]
  refine ⟨hver, by rw [hunp], ?_, ?_, ?_⟩ <;>
    · unfold install_plugin
      simp [hunp, hreg]

/-- Claim C10 (witness): a concrete unsigned archive verifies and unpacks,
yet its install raises the `_role` KeyError with the files already
moved. -/
theorem unsigned_install_keyerror_witness :
    verify_manifest witnessSha (c10Archive.manifest.getD []) =
      .ok (true, "No integrity lock (unverified plugin)") ∧
    (unpack_plugin witnessSha c10Archive "data/plugins" true []).1 =
      .ok (dictSet (c10Archive.manifest.getD []) "_path"
        (.str "data/plugins/hello_world")) ∧
    (install_plugin witnessSha { actions := [], plugins := [] } []
      c10Archive none "system").1 = .error "KeyError: \x27_role\x27" := by
  have h := unsigned_install_keyerror witnessSha
    { actions := [], plugins := [] } [] c10Archive
    (c10Archive.manifest.getD []) "hello_world" rfl rfl rfl rfl rfl
  exact ⟨h.1 (c10Archive.manifest.getD []) rfl, h.2.1, h.2.2.1⟩

/-! ## Claim C1 — the first generation loop never terminates -/

/-- Each provider chunk forwarded by the first loop yields exactly one
event. -/
theorem genStep1_fold_length (chunks : List PChunk) (evs : List Event)
    (fc th : String) :
    (chunks.foldl genStep1 (evs, fc, th)).1.length =
      evs.length + chunks.length := by
  induction chunks generalizing evs fc th with
  | nil => simp
  | cons c cs ih =>
      cases c with
      | dict d =>
          simp only [List.foldl_cons, genStep1]
          rw [ih]
          simp
          omega
      | text str =>
          simp only [List.foldl_cons, genStep1]
          rw [ih]
          simp
          omega

/-- The normalisation block does nothing when `json_data` is unset. -/
theorem normalizeActionsBlock_none :
    normalizeActionsBlock none = Except.ok [] := rfl

/-- One iteration of the first loop from a plain-call state (not resuming,
no `json_data`, no found actions) with a normally completing generation:
the loop counter does not move, the invariant fields persist, control
continues, and exactly the provider's chunks are forwarded. -/
theorem loop1Iter_plain (P : OrkParams) (s : L1State)
    (h1 : s.resumeAction = false) (h2 : s.jsonData = none)
    (h3 : s.foundResumeActions = [])
    (hg : (P.gen s.genIdx).2 = none) :
    (loop1Iter P s).control = L1Control.next ∧
    (loop1Iter P s).state.currentLoop = s.currentLoop ∧
    (loop1Iter P s).state.resumeAction = false ∧
    (loop1Iter P s).state.jsonData = none ∧
    (loop1Iter P s).state.foundResumeActions = [] ∧
    (loop1Iter P s).events.length = (P.gen s.genIdx).1.length := by
  rcases hpg : P.gen s.genIdx with ⟨chunks, exc⟩
  have hexc : exc = none := by rw [hpg] at hg; exact hg
  subst hexc
  unfold loop1Iter
  rw [h1]
  simp only [Bool.not_false, if_true, hpg, h2, normalizeActionsBlock_none,
    h3]
  by_cases hfc : pyTrim (chunks.foldl genStep1 ([], "", s.accThinking)).2.1 ≠ ""
  · simp [hfc, genStep1_fold_length]
  · simp [hfc, genStep1_fold_length]

/-- Claim C1 (evaluated on the code).  `ask_stream`'s first generation
loop (`while current_loop <= max_loops`, lines 354-612) cannot terminate
on a plain call with a provider that completes normally: nothing in the
no-actions path increments `current_loop` or breaks, so after every `n`
iterations the loop guard still holds with `current_loop = 0`, the
generator has not returned, and at least `n` events have been yielded —
the yielded sequence is unbounded, contradicting the claimed finiteness
with a terminal content/permission/error event.  (The second loop at
lines 619-992 — and with it the claimed terminal handling — is therefore
unreachable.) -/
theorem ask_stream_loop1_diverges (P : OrkParams) (sys : String)
    (hist : List Msg)
    (hgen : ∀ k, (P.gen k).2 = none ∧ (P.gen k).1 ≠ []) :
    ∀ n, (loop1Run P (initL1State sys hist P.prompt) n).halted = false ∧
      (loop1Run P (initL1State sys hist P.prompt) n).state.currentLoop = 0 ∧
      n ≤ (loop1Run P (initL1State sys hist P.prompt) n).events.length := by
  have hmain : ∀ n,
      (loop1Run P (initL1State sys hist P.prompt) n).halted = false ∧
      (loop1Run P (initL1State sys hist P.prompt) n).state.currentLoop = 0 ∧
      (loop1Run P (initL1State sys hist P.prompt) n).state.resumeAction
        = false ∧
      (loop1Run P (initL1State sys hist P.prompt) n).state.jsonData = none ∧
      (loop1Run P (initL1State sys hist P.prompt) n).state.foundResumeActions
        = [] ∧
      n ≤ (loop1Run P (initL1State sys hist P.prompt) n).events.length := by
    intro n
    induction n with
    | zero => exact ⟨rfl, rfl, rfl, rfl, rfl, by simp [loop1Run]⟩
    | succ n ih =>
        obtain ⟨ih1, ih2, ih3, ih4, ih5, ih6⟩ := ih
        have hiter := loop1Iter_plain P
          (loop1Run P (initL1State sys hist P.prompt) n).state ih3 ih4 ih5
          (hgen _).1
        have hguard : ¬ ((loop1Run P (initL1State sys hist P.prompt) n).halted
            ∨ 5 < (loop1Run P (initL1State sys hist P.prompt) n).state.currentLoop) := by
          rw [ih1, ih2]
          simp
        have hstep : loop1Run P (initL1State sys hist P.prompt) (n + 1) =
            { state := (loop1Iter P
                (loop1Run P (initL1State sys hist P.prompt) n).state).state,
              events := (loop1Run P (initL1State sys hist P.prompt) n).events
                ++ (loop1Iter P
                  (loop1Run P (initL1State sys hist P.prompt) n).state).events,
              executed :=
                (loop1Run P (initL1State sys hist P.prompt) n).executed
                ++ (loop1Iter P
                  (loop1Run P (initL1State sys hist P.prompt) n).state).executed,
              halted := (loop1Iter P
                (loop1Run P (initL1State sys hist P.prompt) n).state).control
                  == L1Control.halt } := by
          conv_lhs => rw [loop1Run]
          rw [if_neg hguard]
        obtain ⟨hc, hcl, hra, hjd, hfa, hlen⟩ := hiter
        refine ⟨?_, ?_, ?_, ?_, ?_, ?_⟩
        · rw [hstep]; simp [hc]
        · rw [hstep]; simpa [hcl] using ih2
        · rw [hstep]; exact hra
        · rw [hstep]; exact hjd
        · rw [hstep]; exact hfa
        · rw [hstep]
          simp only [List.length_append]
          have hpos : 1 ≤ (P.gen (loop1Run P
              (initL1State sys hist P.prompt) n).state.genIdx).1.length := by
            rcases hch : (P.gen (loop1Run P
                (initL1State sys hist P.prompt) n).state.genIdx).1 with _ | _
            · exact absurd hch (hgen _).2
            · simp
          omega
  intro n
  exact ⟨(hmain n).1, (hmain n).2.1, (hmain n).2.2.2.2.2⟩

/-- Claim C1 (witness): three iterations of the loop on a concrete plain
call have yielded three events without terminating. -/
theorem ask_stream_loop1_diverges_witness :
    (loop1Run c1Params (initL1State "sys" [] c1Params.prompt) 3).halted
      = false ∧
    (loop1Run c1Params
      (initL1State "sys" [] c1Params.prompt) 3).state.currentLoop = 0 ∧
    3 ≤ (loop1Run c1Params
      (initL1State "sys" [] c1Params.prompt) 3).events.length := by
  exact ask_stream_loop1_diverges c1Params "sys" []
    (fun k => ⟨rfl, by simp [c1Params]⟩) 3

/-! ## Claim C2 — the pre-request phase never consults the cache -/

/-- The executed-names component of one pre-request step: a pre-request
action is always dispatched, whatever the executor does. -/
theorem preRequestStep_fst (exec : String → ExecOutcome)
    (acc : List String × List String) (kv : String × Json) :
    (preRequestStep exec acc kv).1 =
      if isPreRequestMeta kv.2 then acc.1 ++ [kv.1] else acc.1 := by
  obtain ⟨name, meta⟩ := kv
  unfold preRequestStep isPreRequestMeta
  rcases htr : jsonGetD meta "trigger" Json.null with _ | b | n | t | xs | fs
  · simp [htr]
  · simp [htr]
  · simp [htr]
  · simp only [htr]
    by_cases ht : (t == "pre_request") = true
    · simp only [ht, if_true]
      rcases hex : exec name with out | ⟨e, p⟩ | msg <;> rfl
    · simp [ht]
  · simp [htr]
  · simp [htr]

/-- The executed names of the whole phase are exactly the names of the
registered actions with trigger `pre_request`. -/
theorem preRequestPhase_executed (exec : String → ExecOutcome)
    (l : List (String × Json)) :
    (preRequestPhase exec l).1 =
      (l.filter fun kv => isPreRequestMeta kv.2).map (·.1) := by
  suffices haux : ∀ acc : List String × List String,
      (l.foldl (preRequestStep exec) acc).1 =
        acc.1 ++ (l.filter fun kv => isPreRequestMeta kv.2).map (·.1) by
    simpa [preRequestPhase] using haux ([], [])
  induction l with
  | nil => intro acc; simp
  | cons kv rest ih =>
      intro acc
      simp only [List.foldl_cons, ih, List.filter_cons]
      by_cases hpre : isPreRequestMeta kv.2
      · simp [preRequestStep_fst, hpre]
      · simp [preRequestStep_fst, hpre]

/-- Claim C2 (evaluated on the code).  The pre-request phase of
`ask_stream` (lines 258-283) dispatches every `pre_request` action
synchronously on every call — including every action whose cache ttl is
positive and for which the `ActionCache` holds a fresh entry (second
conjunct: such an entry would be returned by `ActionCache.get`).  Nothing
in `ask_stream` calls `get`, `get_stale`, `is_stale` or `set`, so no
cached output is ever used and no background refresh is ever
dispatched. -/
theorem pre_request_ignores_cache (exec : String → ExecOutcome)
    (allActions : List (String × Json)) (name : String) (meta : Json)
    (hmem : (name, meta) ∈ allActions) (htrig : isPreRequestMeta meta = true)
    (ttl : Int) (httl : 0 < ttl) (c : Cache) (now t0 : ℚ) (uid : String)
    (data : Json) (hfresh : now - t0 < (ttl : ℚ)) :
    name ∈ (preRequestPhase exec allActions).1 ∧
    cacheGet (cacheSet c t0 name uid data ttl) now name uid ttl
      = some data := by
  constructor
  · rw [preRequestPhase_executed]
    exact List.mem_map.mpr ⟨(name, meta),
      List.mem_filter.mpr ⟨hmem, htrig⟩, rfl⟩
  · have hset : cacheSet c t0 name uid data ttl =
        cacheStore c (cacheKey name uid)
          { data := data, timestamp := t0, ttl := ttl } := by
      simp [cacheSet, not_le.mpr httl]
    simp [cacheGet, hset, cacheLookup_cacheStore_self, not_le.mpr httl,
      hfresh]

/-- Claim C2 (witness): a concrete pre-request action with ttl 300 and a
fresh cache entry is still dispatched. -/
theorem pre_request_ignores_cache_witness :
    "system_info" ∈ (preRequestPhase
      (fun _ => .success (.str "cpu: 1%"))
      [("system_info",
        .obj [("trigger", .str "pre_request"), ("cache_ttl", .int 300)])]).1 ∧
    cacheGet (cacheSet [] 0 "system_info" "u1" (.str "cpu: 1%") 300) 10
      "system_info" "u1" 300 = some (.str "cpu: 1%") := by
  exact pre_request_ignores_cache (fun _ => .success (.str "cpu: 1%"))
    [("system_info",
      .obj [("trigger", .str "pre_request"), ("cache_ttl", .int 300)])]
    "system_info"
    (.obj [("trigger", .str "pre_request"), ("cache_ttl", .int 300)])
    (by simp) rfl 300 (by norm_num) [] 10 0 "u1" (.str "cpu: 1%")
    (by norm_num)

/-! ## Claim C3 — detected actions run without a permission check -/

/-- Claim C3 (evaluated at the failing input).  A resume call whose last
assistant message requests `say_hello`, with an empty permission store
(`check_permission` is false for every user and chat), still executes the
action in the very first loop iteration: the resume path of the first
generation loop (lines 470-609) submits every found action to the worker
pool without ever calling `check_permission`, no `permission_required`
event is emitted, and the generator does not terminate.  (The permission
gate of lines 754-795 lives in the unreachable second loop.) -/
theorem resume_executes_without_permission :
    check_permission [] "2026-10-12" "1" "say_hello" (some "chat-1")
      = false ∧
    (loop1Run c3Params c3Start 1).executed.any
      (fun nv =>
        match nv.1 with
        | .str n => n == "say_hello"
        | _ => false) = true ∧
    (loop1Run c3Params c3Start 1).events.any Event.isPermissionRequired
      = false ∧
    (loop1Run c3Params c3Start 1).halted = false := by
  exact ⟨rfl, rfl, rfl, rfl⟩

/-! ## Claim C7 — the final `json_content` analysis is dead code -/

/-- Claim C7 (evaluated at the failing input).  With `return_json`
requested and a generation whose accumulated content parses to an object
with a `message` field and no actions, the second loop's body leaves the
loop through the `break` at line 944 without emitting any `json_content`
event: the final-response analysis of lines 946-969 sits after an
`if`/`else` whose branches both `continue` or `break`, so it is
unreachable, and the body's output does not depend on `return_json` at
all (last conjunct). -/
theorem return_json_final_analysis_unreachable :
    c7Params.extract
        ((loop2Body c7Params [] "2026-10-12" "1" "chat-1" true 0
          c7Prov).fullContentRaw) =
      some (.obj [("message", .str "Done.")]) ∧
    (loop2Body c7Params [] "2026-10-12" "1" "chat-1" true 0 c7Prov).control
      = L2Control.breakLoop ∧
    (loop2Body c7Params [] "2026-10-12" "1" "chat-1" true 0
      c7Prov).events.any Event.isJsonContent = false ∧
    (loop2Body c7Params [] "2026-10-12" "1" "chat-1" true 0 c7Prov).events
      = (loop2Body c7Params [] "2026-10-12" "1" "chat-1" false 0
          c7Prov).events := by
  exact ⟨rfl, rfl, rfl, rfl⟩

end Genesis
